import Mathlib

/-! Connectivity classifier and monitor of imagedumper-app.

Shallow embedding of

* `src/linux/runner/network_service_linux.cc` (namespace `NetworkServiceLinux`),
* `src/windows/runner/network_service_windows.cpp` (namespace `NetworkServiceWindows`),
* the monitoring functions of `src/linux/runner/my_application.cc` (namespace `MyApplication`),
* the monitoring functions of `src/windows/runner/flutter_window.cpp` (namespace `FlutterWindow`).

Platform calls (sockets, `getifaddrs`, sysfs files, `GetAdaptersInfo`, the clock) are read from an
explicit platform-state argument. A C++ exception that leaves a function is an `Except.error`.
-/

set_option autoImplicit false

/-! ## The C++ standard library pieces used by the sources -/

/-- The two exceptions `std::stoi` can throw. -/
inductive StdException where
  | invalid_argument
  | out_of_range
  deriving DecidableEq, Repr

instance instDecidableEqExcept {ε α : Type} [DecidableEq ε] [DecidableEq α] :
    DecidableEq (Except ε α)
  | .ok a, .ok b => if h : a = b then isTrue (by rw [h]) else isFalse (fun e => h (by cases e; rfl))
  | .error a, .error b =>
    if h : a = b then isTrue (by rw [h]) else isFalse (fun e => h (by cases e; rfl))
  | .ok _, .error _ => isFalse (fun e => by cases e)
  | .error _, .ok _ => isFalse (fun e => by cases e)

/-- Does the character list start with `pat`? -/
def startsWith : List Char → List Char → Bool
  | _, [] => true
  | [], _ :: _ => false
  | c :: s, d :: pat => c == d && startsWith s pat

/-- Search of `pat` in `s` from offset `i` on: offset of the first occurrence. -/
def findFrom : List Char → List Char → Nat → Option Nat
  | [], pat, i => if pat = [] then some i else none
  | c :: s, pat, i => if startsWith (c :: s) pat then some i else findFrom s pat (i + 1)

/-- The call `s.find(pat)` of `std::string`: `none` stands for `std::string::npos`. -/
def find (s pat : String) : Option Nat := findFrom s.data pat.data 0

/-- The call `std::getline(file, str)` on a freshly opened file with the given content: the
characters before the first newline (the empty string for an empty file). -/
def getline (content : String) : String := String.mk (content.data.takeWhile (fun c => c != '\n'))

/-- The C `isspace` in the "C" locale. -/
def isspace (c : Char) : Bool :=
  c == ' ' || c == '\t' || c == '\n' || c == '\r' || c.toNat == 11 || c.toNat == 12

/-- Value of a run of decimal digits. -/
def digitsValue (ds : List Char) : Nat := ds.foldl (fun acc c => 10 * acc + (c.toNat - 48)) 0

/-- The call `std::stoi(str)` (base 10, 32-bit `int`): leading white space is skipped, an optional
sign and the longest run of digits are read, the rest of the string is ignored.
No digit: `std::invalid_argument`. Value outside `int`: `std::out_of_range`. -/
def stoi (str : String) : Except StdException Int :=
  let body := str.data.dropWhile isspace
  let negative := body.head? == some '-'
  let unsigned := if body.head? == some '-' || body.head? == some '+' then body.tail else body
  let digits := unsigned.takeWhile Char.isDigit
  if digits = [] then .error .invalid_argument
  else
    let value : Int := if negative then -(digitsValue digits : Int) else (digitsValue digits : Int)
    if value < -2147483648 ∨ 2147483647 < value then .error .out_of_range else .ok value

/-! ## `network_service_linux.cc` -/

namespace NetworkServiceLinux

/-- Linux value of the address family constant `AF_INET`. -/
def AF_INET : Nat := 2

/-- The part of `struct sockaddr` the code reads: the family and, for an `AF_INET` address seen
as `sockaddr_in`, `sin_addr.s_addr`. -/
structure sockaddr where
  sa_family : Nat
  s_addr : Nat
  deriving DecidableEq, Repr

/-- One node of the list `getifaddrs` returns; `ifa_addr = none` is the null pointer. -/
structure ifaddrs where
  ifa_name : String
  ifa_addr : Option sockaddr
  deriving DecidableEq, Repr

/-- Platform state read by the service. -/
structure Host where
  /-- Whether `socket(AF_INET, SOCK_DGRAM, 0)` returns something other than `-1`. -/
  socket_ok : Bool
  /-- The list filled in by `getifaddrs`, `none` when it returns `-1`. -/
  getifaddrs : Option (List ifaddrs)
  /-- Result of `std::filesystem::exists(path)`. -/
  path_exists : String → Bool
  /-- Result of opening `std::ifstream(path)`: `none` when the file cannot be opened, else its
  content. -/
  ifstream : String → Option String

/-- Source function `NetworkServiceLinux::IsInterfaceUp`. -/
def IsInterfaceUp (h : Host) (interface_name : String) : Bool :=
  let operstate_path := "/sys/class/net/" ++ interface_name ++ "/operstate"
  match h.ifstream operstate_path with
  | some content => getline content == "up"
  | none => false

/-- Lines 146-160 of `GetInterfaceType`: the classification by name patterns alone. -/
def GetInterfaceType.fallback (interface_name : String) : String :=
  if (find interface_name "wl").isSome || (find interface_name "wlan").isSome ||
      (find interface_name "wifi").isSome then "wifi"
  else if (find interface_name "eth").isSome || (find interface_name "en").isSome ||
      (find interface_name "em").isSome then "ethernet"
  else if (find interface_name "wwan").isSome || (find interface_name "ppp").isSome then "mobile"
  else "ethernet"

/-- Source function `NetworkServiceLinux::GetInterfaceType`; the error is the exception of
`std::stoi`, which the function does not catch. -/
def GetInterfaceType (h : Host) (interface_name : String) : Except StdException String :=
  let wireless_path := "/sys/class/net/" ++ interface_name ++ "/wireless"
  if h.path_exists wireless_path then .ok "wifi"
  else
    let type_path := "/sys/class/net/" ++ interface_name ++ "/type"
    match h.ifstream type_path with
    | some content =>
      let type_str := getline content
      match stoi type_str with
      | .error e => .error e
      | .ok type =>
        if type = 1 then
          if (find interface_name "wl").isSome || (find interface_name "wlan").isSome ||
              (find interface_name "wifi").isSome then .ok "wifi"
          else if (find interface_name "eth").isSome || (find interface_name "en").isSome ||
              (find interface_name "em").isSome then .ok "ethernet"
          else if (find interface_name "wwan").isSome || (find interface_name "ppp").isSome ||
              (find interface_name "usb").isSome then .ok "mobile"
          else .ok "ethernet"
        else .ok (GetInterfaceType.fallback interface_name)
    | none => .ok (GetInterfaceType.fallback interface_name)

/-- The scan of `IsConnected` (lines 87-101): is there a non-loopback IPv4 entry whose address is
not 0? -/
def IsConnected.scan : List ifaddrs → Bool
  | [] => false
  | ifa :: next =>
    match ifa.ifa_addr with
    | none => IsConnected.scan next
    | some addr =>
      if addr.sa_family = AF_INET then
        if ifa.ifa_name ≠ "lo" then
          if addr.s_addr ≠ 0 then true else IsConnected.scan next
        else IsConnected.scan next
      else IsConnected.scan next

/-- Source function `NetworkServiceLinux::IsConnected`. -/
def IsConnected (h : Host) : Bool :=
  if !h.socket_ok then false
  else
    match h.getifaddrs with
    | none => false
    | some ifaddr => IsConnected.scan ifaddr

/-- The enumeration loop of `GetNetworkType` (lines 30-49): the names pushed to
`active_interfaces`, in order. -/
def GetNetworkType.active_interfaces (h : Host) : List ifaddrs → List String
  | [] => []
  | ifa :: next =>
    match ifa.ifa_addr with
    | none => GetNetworkType.active_interfaces h next
    | some addr =>
      if addr.sa_family = AF_INET then
        if ifa.ifa_name = "lo" then GetNetworkType.active_interfaces h next
        else if addr.s_addr ≠ 0 then
          if IsInterfaceUp h ifa.ifa_name then
            ifa.ifa_name :: GetNetworkType.active_interfaces h next
          else GetNetworkType.active_interfaces h next
        else GetNetworkType.active_interfaces h next
      else GetNetworkType.active_interfaces h next

/-- The priority loop of `GetNetworkType` (lines 56-68) run from the current `primary_type` over
the remaining interfaces. -/
def GetNetworkType.priority (h : Host) : String → List String → Except StdException String
  | primary_type, [] => .ok primary_type
  | primary_type, interface :: rest =>
    match GetInterfaceType h interface with
    | .error e => .error e
    | .ok type =>
      if type = "ethernet" then .ok "ethernet"
      else if type = "wifi" ∧ primary_type ≠ "ethernet" then GetNetworkType.priority h "wifi" rest
      else if type = "mobile" ∧ primary_type = "none" then GetNetworkType.priority h "mobile" rest
      else GetNetworkType.priority h primary_type rest

/-- Source function `NetworkServiceLinux::GetNetworkType`. -/
def GetNetworkType (h : Host) : Except StdException String :=
  if !IsConnected h then .ok "none"
  else
    match h.getifaddrs with
    | none => .ok "none"
    | some ifaddr =>
      GetNetworkType.priority h "none" (GetNetworkType.active_interfaces h ifaddr)

/-- Source function `NetworkServiceLinux::IsConnectedToWifiOrEthernet`. -/
def IsConnectedToWifiOrEthernet (h : Host) : Except StdException Bool :=
  match GetNetworkType h with
  | .error e => .error e
  | .ok networkType => .ok (networkType == "wifi" || networkType == "ethernet")

end NetworkServiceLinux

/-! ## `network_service_windows.cpp` -/

namespace NetworkServiceWindows

/-- The interface-type constants of the Windows SDK headers named in `GetAdapterTypeString`;
their values are not part of the repository and are taken as a parameter. -/
structure IfTypeConstants where
  MIB_IF_TYPE_ETHERNET : Nat
  IF_TYPE_GIGABITETHERNET : Nat
  IF_TYPE_FASTETHER : Nat
  IF_TYPE_FASTETHER_FX : Nat
  IF_TYPE_IEEE80211 : Nat
  IF_TYPE_WWANPP : Nat
  IF_TYPE_WWANPP2 : Nat
  IF_TYPE_WWAN : Nat
  MIB_IF_TYPE_PPP : Nat
  MIB_IF_TYPE_SLIP : Nat

/-- The part of `IP_ADAPTER_INFO` the code reads: `IpAddressList.IpAddress.String` and `Type`. -/
structure IP_ADAPTER_INFO where
  IpAddress : String
  adapterType : Nat
  deriving DecidableEq, Repr

/-- Platform state read by the service. -/
structure Host where
  /-- Whether `InternetGetConnectedState(&flags, 0)` returns something other than 0. -/
  InternetGetConnectedState : Bool
  /-- Whether the size query `GetAdaptersInfo(nullptr, &bufferSize)` returns
  `ERROR_BUFFER_OVERFLOW`. -/
  size_query_overflow : Bool
  /-- Whether `malloc(bufferSize)` returns a non-null pointer. -/
  malloc_ok : Bool
  /-- The adapter list filled in by the second `GetAdaptersInfo`, `none` when the result is not
  `NO_ERROR`. -/
  GetAdaptersInfo : Option (List IP_ADAPTER_INFO)

/-- Source function `NetworkServiceWindows::GetAdapterTypeString` (the `switch`, label by
label). -/
def GetAdapterTypeString (k : IfTypeConstants) (adapterType : Nat) : String :=
  if adapterType = k.MIB_IF_TYPE_ETHERNET ∨ adapterType = k.IF_TYPE_GIGABITETHERNET ∨
      adapterType = k.IF_TYPE_FASTETHER ∨ adapterType = k.IF_TYPE_FASTETHER_FX then "ethernet"
  else if adapterType = k.IF_TYPE_IEEE80211 then "wifi"
  else if adapterType = k.IF_TYPE_WWANPP ∨ adapterType = k.IF_TYPE_WWANPP2 ∨
      adapterType = k.IF_TYPE_WWAN then "mobile"
  else if adapterType = k.MIB_IF_TYPE_PPP ∨ adapterType = k.MIB_IF_TYPE_SLIP then "mobile"
  else "none"

/-- Source function `NetworkServiceWindows::IsConnected`. -/
def IsConnected (h : Host) : Bool := h.InternetGetConnectedState

/-- The adapter loop of `GetNetworkType` (lines 45-61) run from the current
`primaryNetworkType` over the remaining adapters. -/
def GetNetworkType.priority (k : IfTypeConstants) : String → List IP_ADAPTER_INFO → String
  | primaryNetworkType, [] => primaryNetworkType
  | primaryNetworkType, adapter :: next =>
    if adapter.IpAddress ≠ "0.0.0.0" then
      let adapterTypeStr := GetAdapterTypeString k adapter.adapterType
      if adapterTypeStr = "ethernet" then "ethernet"
      else if adapterTypeStr = "wifi" ∧ primaryNetworkType ≠ "ethernet" then
        GetNetworkType.priority k "wifi" next
      else if adapterTypeStr = "mobile" ∧ primaryNetworkType = "none" then
        GetNetworkType.priority k "mobile" next
      else GetNetworkType.priority k primaryNetworkType next
    else GetNetworkType.priority k primaryNetworkType next

/-- Source function `NetworkServiceWindows::GetNetworkType`. -/
def GetNetworkType (k : IfTypeConstants) (h : Host) : String :=
  if !IsConnected h then "none"
  else if !h.size_query_overflow then "none"
  else if !h.malloc_ok then "none"
  else
    match h.GetAdaptersInfo with
    | none => "none"
    | some adapterInfo => GetNetworkType.priority k "none" adapterInfo

/-- Source function `NetworkServiceWindows::IsConnectedToWifiOrEthernet`. -/
def IsConnectedToWifiOrEthernet (k : IfTypeConstants) (h : Host) : Bool :=
  let networkType := GetNetworkType k h
  networkType == "wifi" || networkType == "ethernet"

end NetworkServiceWindows

/-! ## The monitor: shared data -/

/-- The map sent on the event channel: keys `isConnected`, `isWifiOrEthernet`, `networkType`,
`timestamp`. -/
structure Snapshot where
  isConnected : Bool
  isWifiOrEthernet : Bool
  networkType : String
  timestamp : Int
  deriving DecidableEq, Repr

/-- The locals of the monitoring thread's lambda, and whether its `while` loop has been left. -/
structure LoopThread where
  lastNetworkType : String
  lastIsConnected : Bool
  lastIsWifiOrEthernet : Bool
  exited : Bool
  deriving DecidableEq, Repr

/-- What one run of the send function observes: the platform state at each of its three service
calls, in the order they are made, and the clock (epoch milliseconds). -/
structure SendReads (H : Type) where
  atIsConnected : H
  atIsConnectedToWifiOrEthernet : H
  atGetNetworkType : H
  now : Int

/-- What one iteration of the monitoring loop observes: the platform state at each of its three
service calls, in the order they are made, and the reads of the send it may perform. -/
structure LoopReads (H : Type) where
  atGetNetworkType : H
  atIsConnected : H
  atIsConnectedToWifiOrEthernet : H
  send : SendReads H

/-- The platform state held fixed while one snapshot is built. -/
def SendReads.fixed {H : Type} (h : H) (now : Int) : SendReads H := ⟨h, h, h, now⟩

/-- The platform state held fixed during one loop iteration. -/
def LoopReads.fixed {H : Type} (h : H) (now : Int) : LoopReads H :=
  ⟨h, h, h, SendReads.fixed h now⟩

/-- How the process ends abnormally: an exception nobody catches, or the destruction or
reassignment of a joinable `std::thread`; both call `std::terminate`. -/
inductive Abort where
  | uncaught (e : StdException)
  | joinable_thread_destroyed
  deriving DecidableEq, Repr

/-- The steps of the monitor. -/
inductive Event (H : Type) where
  | start (w : SendReads H)
  | stop
  | tick (w : LoopReads H)

/-! ## `my_application.cc` -/

/-- The fields of `struct _MyApplication` the monitor uses. `event_channel` tells whether the
pointer is non-null; `monitoring_thread = none` is the null pointer; `is_monitoring` is the value
of the atomic flag, which is allocated from `my_application_init` to dispose; `sent` lists the
values handed to `fl_event_channel_send`, oldest first. -/
structure MyApplication where
  event_channel : Bool
  monitoring_thread : Option LoopThread
  is_monitoring : Bool
  sent : List Snapshot
  deriving DecidableEq, Repr

namespace MyApplication
open NetworkServiceLinux

/-- Source function `send_network_update`. -/
def send_network_update (self : MyApplication) (w : SendReads Host) : Except Abort MyApplication :=
  if self.event_channel then
    let isConnected := IsConnected w.atIsConnected
    match IsConnectedToWifiOrEthernet w.atIsConnectedToWifiOrEthernet with
    | .error e => .error (.uncaught e)
    | .ok isWifiOrEthernet =>
      match GetNetworkType w.atGetNetworkType with
      | .error e => .error (.uncaught e)
      | .ok networkType =>
        .ok { self with
          sent := self.sent ++ [⟨isConnected, isWifiOrEthernet, networkType, w.now⟩] }
  else .ok self

/-- Source function `start_network_monitoring`: the flag test, the store, the disposal of an old
thread object, the new thread with fresh locals, and the initial send. -/
def start_network_monitoring (self : MyApplication) (w : SendReads Host) :
    Except Abort MyApplication :=
  if self.is_monitoring then .ok self
  else
    match self.monitoring_thread with
    | some _ => .error .joinable_thread_destroyed
    | none =>
      send_network_update
        { self with is_monitoring := true, monitoring_thread := some ⟨"", false, false, false⟩ } w

/-- One test of the `while` condition of the monitoring thread `t` together with the loop body
that follows when the flag is set (lines 222-240). -/
def loop_iteration (self : MyApplication) (t : LoopThread) (w : LoopReads Host) :
    Except Abort MyApplication :=
  if self.is_monitoring then
    match GetNetworkType w.atGetNetworkType with
    | .error e => .error (.uncaught e)
    | .ok currentNetworkType =>
      let currentIsConnected := IsConnected w.atIsConnected
      match IsConnectedToWifiOrEthernet w.atIsConnectedToWifiOrEthernet with
      | .error e => .error (.uncaught e)
      | .ok currentIsWifiOrEthernet =>
        if currentNetworkType ≠ t.lastNetworkType ∨ currentIsConnected ≠ t.lastIsConnected ∨
            currentIsWifiOrEthernet ≠ t.lastIsWifiOrEthernet then
          let t' : LoopThread :=
            ⟨currentNetworkType, currentIsConnected, currentIsWifiOrEthernet, false⟩
          send_network_update { self with monitoring_thread := some t' } w.send
        else .ok self
  else .ok { self with monitoring_thread := some { t with exited := true } }

/-- The monitoring thread, when there is one that has not left its loop, runs one iteration. -/
def tick (self : MyApplication) (w : LoopReads Host) : Except Abort MyApplication :=
  match self.monitoring_thread with
  | some t => if t.exited then .ok self else loop_iteration self t w
  | none => .ok self

/-- Source function `stop_network_monitoring`: the join returns once the thread has left its
loop, which it does at its next test of the cleared flag. -/
def stop_network_monitoring (self : MyApplication) : MyApplication :=
  if self.is_monitoring then
    match self.monitoring_thread with
    | some _ => { self with is_monitoring := false, monitoring_thread := none }
    | none => { self with is_monitoring := false }
  else self

/-- One step of the monitor. -/
def step (self : MyApplication) : Event Host → Except Abort MyApplication
  | .start w => start_network_monitoring self w
  | .stop => .ok (stop_network_monitoring self)
  | .tick w => tick self w

/-- A sequence of steps, stopping at the first abort. -/
def run : MyApplication → List (Event Host) → Except Abort MyApplication
  | self, [] => .ok self
  | self, e :: es =>
    match step self e with
    | .error a => .error a
    | .ok self' => run self' es

end MyApplication

/-! ## `flutter_window.cpp` -/

/-- The fields of `FlutterWindow` the monitor uses. `event_sink_` tells whether the pointer is
non-null; `monitoring_thread_ = none` is a `std::thread` that is not joinable; `sent` lists the
values handed to `event_sink_->Success`, oldest first. -/
structure FlutterWindow where
  event_sink_ : Bool
  monitoring_thread_ : Option LoopThread
  is_monitoring_ : Bool
  sent : List Snapshot
  deriving DecidableEq, Repr

namespace FlutterWindow
open NetworkServiceWindows

/-- Source function `FlutterWindow::SendNetworkUpdate`. -/
def SendNetworkUpdate (k : IfTypeConstants) (self : FlutterWindow) (w : SendReads Host) :
    FlutterWindow :=
  if self.event_sink_ then
    { self with
      sent := self.sent ++
        [⟨IsConnected w.atIsConnected,
          IsConnectedToWifiOrEthernet k w.atIsConnectedToWifiOrEthernet,
          GetNetworkType k w.atGetNetworkType, w.now⟩] }
  else self

/-- Source function `FlutterWindow::StartNetworkMonitoring`: the flag test, the store, the
assignment of the new thread with fresh locals, and the initial send. -/
def StartNetworkMonitoring (k : IfTypeConstants) (self : FlutterWindow) (w : SendReads Host) :
    Except Abort FlutterWindow :=
  if self.is_monitoring_ then .ok self
  else
    match self.monitoring_thread_ with
    | some _ => .error .joinable_thread_destroyed
    | none =>
      .ok (SendNetworkUpdate k
        { self with is_monitoring_ := true, monitoring_thread_ := some ⟨"", false, false, false⟩ }
        w)

/-- One test of the `while` condition of the monitoring thread `t` together with the loop body
that follows when the flag is set (lines 140-158). -/
def loop_iteration (k : IfTypeConstants) (self : FlutterWindow) (t : LoopThread)
    (w : LoopReads Host) : FlutterWindow :=
  if self.is_monitoring_ then
    let currentNetworkType := GetNetworkType k w.atGetNetworkType
    let currentIsConnected := IsConnected w.atIsConnected
    let currentIsWifiOrEthernet := IsConnectedToWifiOrEthernet k w.atIsConnectedToWifiOrEthernet
    if currentNetworkType ≠ t.lastNetworkType ∨ currentIsConnected ≠ t.lastIsConnected ∨
        currentIsWifiOrEthernet ≠ t.lastIsWifiOrEthernet then
      let t' : LoopThread :=
        ⟨currentNetworkType, currentIsConnected, currentIsWifiOrEthernet, false⟩
      SendNetworkUpdate k { self with monitoring_thread_ := some t' } w.send
    else self
  else { self with monitoring_thread_ := some { t with exited := true } }

/-- The monitoring thread, when there is one that has not left its loop, runs one iteration. -/
def tick (k : IfTypeConstants) (self : FlutterWindow) (w : LoopReads Host) : FlutterWindow :=
  match self.monitoring_thread_ with
  | some t => if t.exited then self else loop_iteration k self t w
  | none => self

/-- Source function `FlutterWindow::StopNetworkMonitoring`. -/
def StopNetworkMonitoring (self : FlutterWindow) : FlutterWindow :=
  if self.is_monitoring_ then
    match self.monitoring_thread_ with
    | some _ => { self with is_monitoring_ := false, monitoring_thread_ := none }
    | none => { self with is_monitoring_ := false }
  else self

/-- One step of the monitor. -/
def step (k : IfTypeConstants) (self : FlutterWindow) : Event Host → Except Abort FlutterWindow
  | .start w => StartNetworkMonitoring k self w
  | .stop => .ok (StopNetworkMonitoring self)
  | .tick w => .ok (tick k self w)

/-- A sequence of steps, stopping at the first abort. -/
def run (k : IfTypeConstants) : FlutterWindow → List (Event Host) → Except Abort FlutterWindow
  | self, [] => .ok self
  | self, e :: es =>
    match step k self e with
    | .error a => .error a
    | .ok self' => run k self' es

end FlutterWindow

/-! ## Definitions used to state the properties -/

namespace NetworkServiceLinux

/-- The filter of the enumeration loop of `GetNetworkType` as one predicate on an entry: an
address is present, it is IPv4, the name is not `lo`, the address is not 0 and the operational
state reads `up`. -/
def survives (h : Host) (ifa : ifaddrs) : Bool :=
  match ifa.ifa_addr with
  | none => false
  | some addr =>
    addr.sa_family == AF_INET && ifa.ifa_name != "lo" && addr.s_addr != 0 &&
      IsInterfaceUp h ifa.ifa_name

/-- A host with one wired interface `eth0` that is up, next to the loopback. -/
def host_eth0 : Host where
  socket_ok := true
  getifaddrs := some [⟨"lo", some ⟨2, 16777343⟩⟩, ⟨"eth0", some ⟨2, 167772165⟩⟩]
  path_exists := fun _ => false
  ifstream := fun p =>
    if p = "/sys/class/net/eth0/operstate" then some "up\n"
    else if p = "/sys/class/net/eth0/type" then some "1\n"
    else none

/-- A host with a mobile link `ppp0`, a wireless `wlan0` and a wired `eth0`, all up. -/
def host_three : Host where
  socket_ok := true
  getifaddrs := some [⟨"ppp0", some ⟨2, 3⟩⟩, ⟨"wlan0", some ⟨2, 4⟩⟩, ⟨"eth0", some ⟨2, 5⟩⟩]
  path_exists := fun p => p == "/sys/class/net/wlan0/wireless"
  ifstream := fun p =>
    if p = "/sys/class/net/ppp0/operstate" ∨ p = "/sys/class/net/wlan0/operstate" ∨
        p = "/sys/class/net/eth0/operstate" then some "up\n"
    else if p = "/sys/class/net/ppp0/type" then some "512\n"
    else if p = "/sys/class/net/eth0/type" then some "1\n"
    else none

/-- A host with a mobile link `ppp0` listed before a wireless `wlan0`, both up. -/
def host_mobile_wifi : Host where
  socket_ok := true
  getifaddrs := some [⟨"ppp0", some ⟨2, 3⟩⟩, ⟨"wlan0", some ⟨2, 4⟩⟩]
  path_exists := fun p => p == "/sys/class/net/wlan0/wireless"
  ifstream := fun p =>
    if p = "/sys/class/net/ppp0/operstate" ∨ p = "/sys/class/net/wlan0/operstate" then some "up\n"
    else if p = "/sys/class/net/ppp0/type" then some "512\n"
    else none

end NetworkServiceLinux

namespace NetworkServiceWindows

/-- Pairwise distinct sample values for the constants, used for concrete runs. -/
def sample_constants : IfTypeConstants where
  MIB_IF_TYPE_ETHERNET := 6
  IF_TYPE_GIGABITETHERNET := 117
  IF_TYPE_FASTETHER := 62
  IF_TYPE_FASTETHER_FX := 69
  IF_TYPE_IEEE80211 := 71
  IF_TYPE_WWANPP := 243
  IF_TYPE_WWANPP2 := 244
  IF_TYPE_WWAN := 245
  MIB_IF_TYPE_PPP := 23
  MIB_IF_TYPE_SLIP := 28

/-- A connected host listing the given adapters. -/
def host_with (adapters : List IP_ADAPTER_INFO) : Host where
  InternetGetConnectedState := true
  size_query_overflow := true
  malloc_ok := true
  GetAdaptersInfo := some adapters

end NetworkServiceWindows

namespace NetworkServiceLinux

/-- A host whose wired interface `eth0` holds an address while its operational state reads
`down`. -/
def host_eth0_down : Host where
  socket_ok := true
  getifaddrs := some [⟨"lo", some ⟨2, 16777343⟩⟩, ⟨"eth0", some ⟨2, 167772165⟩⟩]
  path_exists := fun _ => false
  ifstream := fun p =>
    if p = "/sys/class/net/eth0/operstate" then some "down\n"
    else if p = "/sys/class/net/eth0/type" then some "1\n"
    else none

end NetworkServiceLinux

/-- The application after `my_application_init` and `my_application_activate`: the event channel
is set, there is no thread and the flag is false. -/
def MyApplication.activated : MyApplication := ⟨true, none, false, []⟩

/-- The window after construction and a listen call on the event channel: the sink is set, there
is no thread and the flag is false. -/
def FlutterWindow.listening : FlutterWindow := ⟨true, none, false, []⟩

/-- Number of entries of a list that differ from the entry before them, `prev` standing before
the first entry. -/
def changes {α : Type} [DecidableEq α] : α → List α → Nat
  | _, [] => 0
  | prev, t :: ts => (if t ≠ prev then 1 else 0) + changes t ts

/-- Is the step a Start? -/
def Event.isStart {H : Type} : Event H → Bool
  | .start _ => true
  | _ => false

/-- The triple `(networkType, isConnected, isWifiOrEthernet)` the Linux service yields on a
platform state held fixed; an error when `GetNetworkType` throws. -/
def NetworkServiceLinux.triple (h : NetworkServiceLinux.Host) :
    Except StdException (String × Bool × Bool) :=
  match NetworkServiceLinux.GetNetworkType h with
  | .error e => .error e
  | .ok networkType =>
    match NetworkServiceLinux.IsConnectedToWifiOrEthernet h with
    | .error e => .error e
    | .ok isWifiOrEthernet => .ok (networkType, NetworkServiceLinux.IsConnected h, isWifiOrEthernet)

/-- The triple `(networkType, isConnected, isWifiOrEthernet)` the Windows service yields on a
platform state held fixed. -/
def NetworkServiceWindows.triple (k : NetworkServiceWindows.IfTypeConstants)
    (h : NetworkServiceWindows.Host) : String × Bool × Bool :=
  (NetworkServiceWindows.GetNetworkType k h, NetworkServiceWindows.IsConnected h,
    NetworkServiceWindows.IsConnectedToWifiOrEthernet k h)

/-- A host with one interface `eth0` that is up and has no wireless directory; `type_content`
is the content of `/sys/class/net/eth0/type`, `none` when the file cannot be opened. -/
def NetworkServiceLinux.host_eth0_type (type_content : Option String) :
    NetworkServiceLinux.Host where
  socket_ok := true
  getifaddrs := some [⟨"eth0", some ⟨2, 167772165⟩⟩]
  path_exists := fun _ => false
  ifstream := fun p =>
    if p = "/sys/class/net/eth0/operstate" then some "up\n"
    else if p = "/sys/class/net/eth0/type" then type_content
    else none

/-- A host whose only interface is `name`, up and without a wireless directory; `type_content`
is the content of its `type` file, `none` when the file cannot be opened. -/
def NetworkServiceLinux.host_single (name : String) (type_content : Option String) :
    NetworkServiceLinux.Host where
  socket_ok := true
  getifaddrs := some [⟨name, some ⟨2, 167772165⟩⟩]
  path_exists := fun _ => false
  ifstream := fun p =>
    if p = "/sys/class/net/" ++ name ++ "/operstate" then some "up\n"
    else if p = "/sys/class/net/" ++ name ++ "/type" then type_content
    else none

/-- The host `h` with `getifaddrs` listing `l`. -/
def NetworkServiceLinux.Host.listing (h : NetworkServiceLinux.Host)
    (l : List NetworkServiceLinux.ifaddrs) : NetworkServiceLinux.Host :=
  { h with getifaddrs := some l }

/-- A host with a wireless `wlan0` listed before the loopback, both with an address and up. -/
def NetworkServiceLinux.host_wlan0_lo : NetworkServiceLinux.Host where
  socket_ok := true
  getifaddrs := some [⟨"wlan0", some ⟨2, 167772165⟩⟩, ⟨"lo", some ⟨2, 16777343⟩⟩]
  path_exists := fun p => p == "/sys/class/net/wlan0/wireless"
  ifstream := fun p =>
    if p = "/sys/class/net/wlan0/operstate" ∨ p = "/sys/class/net/lo/operstate" then some "up\n"
    else if p = "/sys/class/net/wlan0/type" then some "1\n"
    else if p = "/sys/class/net/lo/type" then some "772\n"
    else none

/-! ## The priority reduction -/

theorem beq_or_beq_eq_decide (a b c : String) :
    (a == b || a == c) = decide (a = b ∨ a = c) := by
  by_cases h1 : a = b <;> by_cases h2 : a = c <;> simp [h1, h2]

namespace NetworkServiceLinux

theorem linux_priority_ethernet (h : Host) (L : List String) :
    ∀ primary_type : String,
      (∀ i ∈ L, ∃ c, GetInterfaceType h i = .ok c) →
      (∃ i ∈ L, GetInterfaceType h i = .ok "ethernet") →
      GetNetworkType.priority h primary_type L = .ok "ethernet" := by
  induction L with
  | nil => intro _ _ hex; simp at hex
  | cons x xs ih =>
    intro primary_type hall hex
    obtain ⟨c, hc⟩ := hall x (List.mem_cons_self x xs)
    by_cases hce : c = "ethernet"
    · simp [GetNetworkType.priority, hc, hce]
    · have hall' : ∀ i ∈ xs, ∃ c, GetInterfaceType h i = .ok c :=
        fun i hi => hall i (List.mem_cons_of_mem x hi)
      have hex' : ∃ i ∈ xs, GetInterfaceType h i = .ok "ethernet" := by
        obtain ⟨i, hi, hie⟩ := hex
        rcases List.mem_cons.mp hi with rfl | hi'
        · rw [hc] at hie
          exact absurd (Except.ok.inj hie) hce
        · exact ⟨i, hi', hie⟩
      simp only [GetNetworkType.priority, hc, hce, if_false]
      split_ifs <;> exact ih _ hall' hex'

theorem linux_priority_wifi_kept (h : Host) (L : List String)
    (hall : ∀ i ∈ L, ∃ c, GetInterfaceType h i = .ok c)
    (hno : ∀ i ∈ L, GetInterfaceType h i ≠ .ok "ethernet") :
    GetNetworkType.priority h "wifi" L = .ok "wifi" := by
  induction L with
  | nil => rfl
  | cons x xs ih =>
    obtain ⟨c, hc⟩ := hall x (List.mem_cons_self x xs)
    have hce : c ≠ "ethernet" := fun e => hno x (List.mem_cons_self x xs) (by rw [hc, e])
    have ih' := ih (fun i hi => hall i (List.mem_cons_of_mem x hi))
      (fun i hi => hno i (List.mem_cons_of_mem x hi))
    simp only [GetNetworkType.priority, hc, hce, if_false]
    split_ifs with h1 h2
    · exact ih'
    · exact absurd h2.2 (by decide)
    · exact ih'

theorem linux_priority_wifi (h : Host) (L : List String) :
    ∀ primary_type : String, primary_type ≠ "ethernet" →
      (∀ i ∈ L, ∃ c, GetInterfaceType h i = .ok c) →
      (∀ i ∈ L, GetInterfaceType h i ≠ .ok "ethernet") →
      (∃ i ∈ L, GetInterfaceType h i = .ok "wifi") →
      GetNetworkType.priority h primary_type L = .ok "wifi" := by
  induction L with
  | nil => intro _ _ _ _ hex; simp at hex
  | cons x xs ih =>
    intro primary_type hp hall hno hex
    obtain ⟨c, hc⟩ := hall x (List.mem_cons_self x xs)
    have hce : c ≠ "ethernet" := fun e => hno x (List.mem_cons_self x xs) (by rw [hc, e])
    have hall' : ∀ i ∈ xs, ∃ c, GetInterfaceType h i = .ok c :=
      fun i hi => hall i (List.mem_cons_of_mem x hi)
    have hno' : ∀ i ∈ xs, GetInterfaceType h i ≠ .ok "ethernet" :=
      fun i hi => hno i (List.mem_cons_of_mem x hi)
    simp only [GetNetworkType.priority, hc, hce, if_false]
    by_cases hcw : c = "wifi"
    · simp only [hcw, hp, ne_eq, not_false_eq_true, and_self, if_true]
      exact linux_priority_wifi_kept h xs hall' hno'
    · have hex' : ∃ i ∈ xs, GetInterfaceType h i = .ok "wifi" := by
        obtain ⟨i, hi, hiw⟩ := hex
        rcases List.mem_cons.mp hi with rfl | hi'
        · rw [hc] at hiw
          exact absurd (Except.ok.inj hiw) hcw
        · exact ⟨i, hi', hiw⟩
      simp only [hcw, false_and, if_false]
      split_ifs
      · exact ih "mobile" (by decide) hall' hno' hex'
      · exact ih primary_type hp hall' hno' hex'

end NetworkServiceLinux

namespace NetworkServiceWindows

theorem win_priority_ethernet (k : IfTypeConstants) (L : List IP_ADAPTER_INFO) :
    ∀ primaryNetworkType : String,
      (∃ a ∈ L, a.IpAddress ≠ "0.0.0.0" ∧ GetAdapterTypeString k a.adapterType = "ethernet") →
      GetNetworkType.priority k primaryNetworkType L = "ethernet" := by
  induction L with
  | nil => intro _ hex; simp at hex
  | cons x xs ih =>
    intro primaryNetworkType hex
    by_cases hx : x.IpAddress ≠ "0.0.0.0" ∧ GetAdapterTypeString k x.adapterType = "ethernet"
    · simp [GetNetworkType.priority, hx.1, hx.2]
    · have hex' : ∃ a ∈ xs, a.IpAddress ≠ "0.0.0.0" ∧
          GetAdapterTypeString k a.adapterType = "ethernet" := by
        obtain ⟨a, ha, hae⟩ := hex
        rcases List.mem_cons.mp ha with rfl | ha'
        · exact absurd hae hx
        · exact ⟨a, ha', hae⟩
      simp only [GetNetworkType.priority]
      split_ifs with h1 h2 <;> first | exact ih _ hex' | exact absurd ⟨h1, h2⟩ hx

theorem win_priority_wifi_kept (k : IfTypeConstants) (L : List IP_ADAPTER_INFO)
    (hno : ∀ a ∈ L, a.IpAddress ≠ "0.0.0.0" → GetAdapterTypeString k a.adapterType ≠ "ethernet") :
    GetNetworkType.priority k "wifi" L = "wifi" := by
  induction L with
  | nil => rfl
  | cons x xs ih =>
    have ih' := ih (fun a ha => hno a (List.mem_cons_of_mem x ha))
    simp only [GetNetworkType.priority]
    split_ifs with h1 h2 h3 h4
    · exact absurd h2 (hno x (List.mem_cons_self x xs) h1)
    · exact ih'
    · exact absurd h4.2 (by decide)
    · exact ih'
    · exact ih'

theorem win_priority_wifi (k : IfTypeConstants) (L : List IP_ADAPTER_INFO) :
    ∀ primaryNetworkType : String, primaryNetworkType ≠ "ethernet" →
      (∀ a ∈ L, a.IpAddress ≠ "0.0.0.0" → GetAdapterTypeString k a.adapterType ≠ "ethernet") →
      (∃ a ∈ L, a.IpAddress ≠ "0.0.0.0" ∧ GetAdapterTypeString k a.adapterType = "wifi") →
      GetNetworkType.priority k primaryNetworkType L = "wifi" := by
  induction L with
  | nil => intro _ _ _ hex; simp at hex
  | cons x xs ih =>
    intro primaryNetworkType hp hno hex
    have hno' : ∀ a ∈ xs, a.IpAddress ≠ "0.0.0.0" →
        GetAdapterTypeString k a.adapterType ≠ "ethernet" :=
      fun a ha => hno a (List.mem_cons_of_mem x ha)
    by_cases hx : x.IpAddress ≠ "0.0.0.0" ∧ GetAdapterTypeString k x.adapterType = "wifi"
    · have hne : GetAdapterTypeString k x.adapterType ≠ "ethernet" := by
        rw [hx.2]; decide
      simp only [GetNetworkType.priority, hx.1, hx.2, hp, ne_eq, not_false_eq_true, and_self,
        if_true]
      rw [if_neg (by decide)]
      exact win_priority_wifi_kept k xs hno'
    · have hex' : ∃ a ∈ xs, a.IpAddress ≠ "0.0.0.0" ∧
          GetAdapterTypeString k a.adapterType = "wifi" := by
        obtain ⟨a, ha, haw⟩ := hex
        rcases List.mem_cons.mp ha with rfl | ha'
        · exact absurd haw hx
        · exact ⟨a, ha', haw⟩
      simp only [GetNetworkType.priority]
      split_ifs with h1 h2 h3 h4
      · exact absurd h2 (hno x (List.mem_cons_self x xs) h1)
      · exact absurd ⟨h1, h3.1⟩ hx
      · exact ih "mobile" (by decide) hno' hex'
      · exact ih primaryNetworkType hp hno' hex'
      · exact ih primaryNetworkType hp hno' hex'

end NetworkServiceWindows

namespace NetworkServiceLinux

theorem active_interfaces_eq (h : Host) (l : List ifaddrs) :
    GetNetworkType.active_interfaces h l = (l.filter (survives h)).map ifaddrs.ifa_name := by
  induction l with
  | nil => rfl
  | cons ifa next ih =>
    cases ha : ifa.ifa_addr with
    | none => simp [GetNetworkType.active_interfaces, survives, ha, ih]
    | some addr =>
      simp only [GetNetworkType.active_interfaces, ha, List.filter_cons, survives, ih]
      by_cases h1 : addr.sa_family = AF_INET <;> by_cases h2 : ifa.ifa_name = "lo" <;>
        by_cases h3 : addr.s_addr = 0 <;> by_cases h4 : IsInterfaceUp h ifa.ifa_name = true <;>
        simp [h1, h2, h3, h4]

theorem linux_GetNetworkType_of_enumeration (h : Host) (ifaddr : List ifaddrs)
    (hc : IsConnected h = true) (he : h.getifaddrs = some ifaddr) :
    GetNetworkType h =
      GetNetworkType.priority h "none" (GetNetworkType.active_interfaces h ifaddr) := by
  simp [GetNetworkType, hc, he]

end NetworkServiceLinux

namespace NetworkServiceWindows

theorem win_GetNetworkType_of_enumeration (k : IfTypeConstants) (h : Host)
    (adapterInfo : List IP_ADAPTER_INFO) (hc : IsConnected h = true)
    (h1 : h.size_query_overflow = true) (h2 : h.malloc_ok = true)
    (h3 : h.GetAdaptersInfo = some adapterInfo) :
    GetNetworkType k h = GetNetworkType.priority k "none" adapterInfo := by
  simp [GetNetworkType, hc, h1, h2, h3]

end NetworkServiceWindows

/-! ## Claims -/

/-- C1. Priority law: whenever the list of active interfaces holds an interface classified
"ethernet", the priority loop of `GetNetworkType` started from "none" returns "ethernet",
whatever the classes of the other interfaces and wherever they stand; hence so does
`GetNetworkType` when the connectivity probe and the enumeration succeed. On Linux every listed
interface is assumed to be classified; on Windows the listed adapters are those with an address
other than "0.0.0.0". -/
theorem C1_ethernet_priority :
    (∀ (h : NetworkServiceLinux.Host) (active_interfaces : List String),
      (∀ i ∈ active_interfaces, ∃ c, NetworkServiceLinux.GetInterfaceType h i = .ok c) →
      (∃ i ∈ active_interfaces, NetworkServiceLinux.GetInterfaceType h i = .ok "ethernet") →
      NetworkServiceLinux.GetNetworkType.priority h "none" active_interfaces = .ok "ethernet") ∧
    (∀ (h : NetworkServiceLinux.Host) (ifaddr : List NetworkServiceLinux.ifaddrs),
      NetworkServiceLinux.IsConnected h = true → h.getifaddrs = some ifaddr →
      (∀ i ∈ NetworkServiceLinux.GetNetworkType.active_interfaces h ifaddr,
        ∃ c, NetworkServiceLinux.GetInterfaceType h i = .ok c) →
      (∃ i ∈ NetworkServiceLinux.GetNetworkType.active_interfaces h ifaddr,
        NetworkServiceLinux.GetInterfaceType h i = .ok "ethernet") →
      NetworkServiceLinux.GetNetworkType h = .ok "ethernet") ∧
    (∀ (k : NetworkServiceWindows.IfTypeConstants)
      (adapters : List NetworkServiceWindows.IP_ADAPTER_INFO),
      (∃ a ∈ adapters, a.IpAddress ≠ "0.0.0.0" ∧
        NetworkServiceWindows.GetAdapterTypeString k a.adapterType = "ethernet") →
      NetworkServiceWindows.GetNetworkType.priority k "none" adapters = "ethernet") ∧
    (∀ (k : NetworkServiceWindows.IfTypeConstants) (h : NetworkServiceWindows.Host)
      (adapters : List NetworkServiceWindows.IP_ADAPTER_INFO),
      NetworkServiceWindows.IsConnected h = true → h.size_query_overflow = true →
      h.malloc_ok = true → h.GetAdaptersInfo = some adapters →
      (∃ a ∈ adapters, a.IpAddress ≠ "0.0.0.0" ∧
        NetworkServiceWindows.GetAdapterTypeString k a.adapterType = "ethernet") →
      NetworkServiceWindows.GetNetworkType k h = "ethernet") := by
  refine ⟨fun h L hall hex => NetworkServiceLinux.linux_priority_ethernet h L "none" hall hex,
    fun h l hc he hall hex => ?_,
    fun k L hex => NetworkServiceWindows.win_priority_ethernet k L "none" hex,
    fun k h L hc h1 h2 h3 hex => ?_⟩
  · rw [NetworkServiceLinux.linux_GetNetworkType_of_enumeration h l hc he]
    exact NetworkServiceLinux.linux_priority_ethernet h _ "none" hall hex
  · rw [NetworkServiceWindows.win_GetNetworkType_of_enumeration k h L hc h1 h2 h3]
    exact NetworkServiceWindows.win_priority_ethernet k L "none" hex

/-- Witness of C1: a mobile link and a wireless interface listed before the wired one on Linux,
and a wireless adapter listed before the wired one on Windows. -/
theorem C1_ethernet_priority_witness :
    NetworkServiceLinux.GetNetworkType.active_interfaces NetworkServiceLinux.host_three
        [⟨"ppp0", some ⟨2, 3⟩⟩, ⟨"wlan0", some ⟨2, 4⟩⟩, ⟨"eth0", some ⟨2, 5⟩⟩] =
      ["ppp0", "wlan0", "eth0"] ∧
    NetworkServiceLinux.GetNetworkType NetworkServiceLinux.host_three = .ok "ethernet" ∧
    NetworkServiceWindows.GetNetworkType NetworkServiceWindows.sample_constants
      (NetworkServiceWindows.host_with [⟨"10.0.0.2", 71⟩, ⟨"10.0.0.3", 6⟩]) = "ethernet" := by
  refine ⟨by decide, C1_ethernet_priority.2.1 NetworkServiceLinux.host_three _ (by decide) rfl
    ?_ ?_, C1_ethernet_priority.2.2.2 NetworkServiceWindows.sample_constants _ _ rfl rfl rfl rfl
      ⟨⟨"10.0.0.3", 6⟩, by simp, by decide, by decide⟩⟩
  · intro i hi
    have hi' : i ∈ ["ppp0", "wlan0", "eth0"] := hi
    simp only [List.mem_cons, List.mem_singleton, List.not_mem_nil, or_false] at hi'
    rcases hi' with rfl | rfl | rfl
    · exact ⟨"mobile", by decide⟩
    · exact ⟨"wifi", by decide⟩
    · exact ⟨"ethernet", by decide⟩
  · exact ⟨"eth0", by decide, by decide⟩

/-- C2. Priority law without ethernet: whenever the list of active interfaces holds an interface
classified "wifi" and one classified "mobile" and none classified "ethernet", the priority loop
of `GetNetworkType` started from "none" returns "wifi", in whatever order the interfaces stand;
hence so does `GetNetworkType` when the connectivity probe and the enumeration succeed. On Linux
every listed interface is assumed to be classified; on Windows the listed adapters are those with
an address other than "0.0.0.0". -/
theorem C2_wifi_over_mobile :
    (∀ (h : NetworkServiceLinux.Host) (active_interfaces : List String),
      (∀ i ∈ active_interfaces, ∃ c, NetworkServiceLinux.GetInterfaceType h i = .ok c) →
      (∃ i ∈ active_interfaces, NetworkServiceLinux.GetInterfaceType h i = .ok "wifi") →
      (∃ i ∈ active_interfaces, NetworkServiceLinux.GetInterfaceType h i = .ok "mobile") →
      (∀ i ∈ active_interfaces, NetworkServiceLinux.GetInterfaceType h i ≠ .ok "ethernet") →
      NetworkServiceLinux.GetNetworkType.priority h "none" active_interfaces = .ok "wifi") ∧
    (∀ (h : NetworkServiceLinux.Host) (ifaddr : List NetworkServiceLinux.ifaddrs),
      NetworkServiceLinux.IsConnected h = true → h.getifaddrs = some ifaddr →
      (∀ i ∈ NetworkServiceLinux.GetNetworkType.active_interfaces h ifaddr,
        ∃ c, NetworkServiceLinux.GetInterfaceType h i = .ok c) →
      (∃ i ∈ NetworkServiceLinux.GetNetworkType.active_interfaces h ifaddr,
        NetworkServiceLinux.GetInterfaceType h i = .ok "wifi") →
      (∃ i ∈ NetworkServiceLinux.GetNetworkType.active_interfaces h ifaddr,
        NetworkServiceLinux.GetInterfaceType h i = .ok "mobile") →
      (∀ i ∈ NetworkServiceLinux.GetNetworkType.active_interfaces h ifaddr,
        NetworkServiceLinux.GetInterfaceType h i ≠ .ok "ethernet") →
      NetworkServiceLinux.GetNetworkType h = .ok "wifi") ∧
    (∀ (k : NetworkServiceWindows.IfTypeConstants)
      (adapters : List NetworkServiceWindows.IP_ADAPTER_INFO),
      (∃ a ∈ adapters, a.IpAddress ≠ "0.0.0.0" ∧
        NetworkServiceWindows.GetAdapterTypeString k a.adapterType = "wifi") →
      (∃ a ∈ adapters, a.IpAddress ≠ "0.0.0.0" ∧
        NetworkServiceWindows.GetAdapterTypeString k a.adapterType = "mobile") →
      (∀ a ∈ adapters, a.IpAddress ≠ "0.0.0.0" →
        NetworkServiceWindows.GetAdapterTypeString k a.adapterType ≠ "ethernet") →
      NetworkServiceWindows.GetNetworkType.priority k "none" adapters = "wifi") ∧
    (∀ (k : NetworkServiceWindows.IfTypeConstants) (h : NetworkServiceWindows.Host)
      (adapters : List NetworkServiceWindows.IP_ADAPTER_INFO),
      NetworkServiceWindows.IsConnected h = true → h.size_query_overflow = true →
      h.malloc_ok = true → h.GetAdaptersInfo = some adapters →
      (∃ a ∈ adapters, a.IpAddress ≠ "0.0.0.0" ∧
        NetworkServiceWindows.GetAdapterTypeString k a.adapterType = "wifi") →
      (∃ a ∈ adapters, a.IpAddress ≠ "0.0.0.0" ∧
        NetworkServiceWindows.GetAdapterTypeString k a.adapterType = "mobile") →
      (∀ a ∈ adapters, a.IpAddress ≠ "0.0.0.0" →
        NetworkServiceWindows.GetAdapterTypeString k a.adapterType ≠ "ethernet") →
      NetworkServiceWindows.GetNetworkType k h = "wifi") := by
  refine ⟨fun h L hall hw _ hno =>
      NetworkServiceLinux.linux_priority_wifi h L "none" (by decide) hall hno hw,
    fun h l hc he hall hw _ hno => ?_,
    fun k L hw _ hno => NetworkServiceWindows.win_priority_wifi k L "none" (by decide) hno hw,
    fun k h L hc h1 h2 h3 hw _ hno => ?_⟩
  · rw [NetworkServiceLinux.linux_GetNetworkType_of_enumeration h l hc he]
    exact NetworkServiceLinux.linux_priority_wifi h _ "none" (by decide) hall hno hw
  · rw [NetworkServiceWindows.win_GetNetworkType_of_enumeration k h L hc h1 h2 h3]
    exact NetworkServiceWindows.win_priority_wifi k L "none" (by decide) hno hw

/-- Witness of C2: the mobile interface listed before the wireless one on Linux, and the mobile
adapter listed before the wireless one on Windows. -/
theorem C2_wifi_over_mobile_witness :
    NetworkServiceLinux.GetNetworkType.active_interfaces NetworkServiceLinux.host_mobile_wifi
        [⟨"ppp0", some ⟨2, 3⟩⟩, ⟨"wlan0", some ⟨2, 4⟩⟩] = ["ppp0", "wlan0"] ∧
    NetworkServiceLinux.GetInterfaceType NetworkServiceLinux.host_mobile_wifi "ppp0" =
      .ok "mobile" ∧
    NetworkServiceLinux.GetInterfaceType NetworkServiceLinux.host_mobile_wifi "wlan0" =
      .ok "wifi" ∧
    NetworkServiceLinux.GetNetworkType NetworkServiceLinux.host_mobile_wifi = .ok "wifi" ∧
    NetworkServiceWindows.GetNetworkType NetworkServiceWindows.sample_constants
      (NetworkServiceWindows.host_with [⟨"10.0.0.2", 243⟩, ⟨"10.0.0.3", 71⟩]) = "wifi" := by
  refine ⟨by decide, by decide, by decide,
    C2_wifi_over_mobile.2.1 NetworkServiceLinux.host_mobile_wifi _ (by decide) rfl ?_
      ⟨"wlan0", by decide, by decide⟩ ⟨"ppp0", by decide, by decide⟩ ?_,
    C2_wifi_over_mobile.2.2.2 NetworkServiceWindows.sample_constants _ _ rfl rfl rfl rfl
      ⟨⟨"10.0.0.3", 71⟩, by simp, by decide, by decide⟩
      ⟨⟨"10.0.0.2", 243⟩, by simp, by decide, by decide⟩ ?_⟩
  · intro i hi
    have hi' : i ∈ ["ppp0", "wlan0"] := hi
    simp only [List.mem_cons, List.mem_singleton, List.not_mem_nil, or_false] at hi'
    rcases hi' with rfl | rfl
    · exact ⟨"mobile", by decide⟩
    · exact ⟨"wifi", by decide⟩
  · intro i hi
    have hi' : i ∈ ["ppp0", "wlan0"] := hi
    simp only [List.mem_cons, List.mem_singleton, List.not_mem_nil, or_false] at hi'
    rcases hi' with rfl | rfl <;> decide
  · intro a ha _
    simp only [List.mem_cons, List.mem_singleton, List.not_mem_nil, or_false] at ha
    rcases ha with rfl | rfl <;> decide

/-- C3. Empty or filtered set: when none of the entries `getifaddrs` lists survives the filter
of the enumeration loop (address present and IPv4, name other than `lo`, address other than 0,
operational state `up`), `GetNetworkType` returns "none"; in particular for the empty list and
for a list holding only a loopback entry; and for the empty list `IsConnected` returns false. -/
theorem C3_filtered_set_is_none :
    (∀ (h : NetworkServiceLinux.Host) (ifaddr : List NetworkServiceLinux.ifaddrs),
      h.getifaddrs = some ifaddr →
      (∀ ifa ∈ ifaddr, NetworkServiceLinux.survives h ifa = false) →
      NetworkServiceLinux.GetNetworkType h = .ok "none") ∧
    (∀ h : NetworkServiceLinux.Host, h.getifaddrs = some [] →
      NetworkServiceLinux.GetNetworkType h = .ok "none" ∧
      NetworkServiceLinux.IsConnected h = false) ∧
    (∀ (h : NetworkServiceLinux.Host) (addr : Option NetworkServiceLinux.sockaddr),
      h.getifaddrs = some [⟨"lo", addr⟩] →
      NetworkServiceLinux.GetNetworkType h = .ok "none") := by
  have key : ∀ (h : NetworkServiceLinux.Host) (ifaddr : List NetworkServiceLinux.ifaddrs),
      h.getifaddrs = some ifaddr →
      (∀ ifa ∈ ifaddr, NetworkServiceLinux.survives h ifa = false) →
      NetworkServiceLinux.GetNetworkType h = .ok "none" := by
    intro h l he hnone
    have hact : NetworkServiceLinux.GetNetworkType.active_interfaces h l = [] := by
      rw [NetworkServiceLinux.active_interfaces_eq, List.filter_eq_nil_iff.mpr]
      · rfl
      · intro a ha; simp [hnone a ha]
    cases hc : NetworkServiceLinux.IsConnected h with
    | false => simp [NetworkServiceLinux.GetNetworkType, hc]
    | true =>
      rw [NetworkServiceLinux.linux_GetNetworkType_of_enumeration h l hc he, hact]
      rfl
  refine ⟨key, fun h he => ⟨key h [] he (by simp), ?_⟩, fun h addr he => key h _ he ?_⟩
  · simp [NetworkServiceLinux.IsConnected, he, NetworkServiceLinux.IsConnected.scan]
  · intro ifa hifa
    rw [List.mem_singleton] at hifa
    subst hifa
    cases addr <;> simp [NetworkServiceLinux.survives]

/-- Witness of C3: a host whose only entries are the loopback and a wired interface that is
down. -/
theorem C3_filtered_set_is_none_witness :
    NetworkServiceLinux.GetNetworkType
      { socket_ok := true,
        getifaddrs := some [⟨"lo", some ⟨2, 16777343⟩⟩, ⟨"eth0", some ⟨2, 5⟩⟩],
        path_exists := fun _ => false,
        ifstream := fun p =>
          if p = "/sys/class/net/eth0/operstate" then some "down\n" else none } = .ok "none" :=
  C3_filtered_set_is_none.1 _ _ rfl (by decide)

namespace NetworkServiceLinux

theorem GetInterfaceType_fallback_cases (interface_name : String) :
    GetInterfaceType.fallback interface_name = "wifi" ∨
    GetInterfaceType.fallback interface_name = "ethernet" ∨
    GetInterfaceType.fallback interface_name = "mobile" := by
  unfold GetInterfaceType.fallback
  split_ifs <;> simp

theorem GetInterfaceType_cases (h : Host) (interface_name c : String)
    (hc : GetInterfaceType h interface_name = .ok c) :
    c = "wifi" ∨ c = "ethernet" ∨ c = "mobile" := by
  have hf := GetInterfaceType_fallback_cases interface_name
  unfold GetInterfaceType at hc
  simp only at hc
  by_cases h1 : h.path_exists ("/sys/class/net/" ++ interface_name ++ "/wireless") = true
  · rw [if_pos h1] at hc
    simp [← Except.ok.inj hc]
  · rw [if_neg h1] at hc
    cases hfile : h.ifstream ("/sys/class/net/" ++ interface_name ++ "/type") with
    | none =>
      rw [hfile] at hc
      rw [← Except.ok.inj hc]; exact hf
    | some content =>
      rw [hfile] at hc
      cases hst : stoi (getline content) with
      | error e => simp [hst] at hc
      | ok type =>
        simp only [hst] at hc
        by_cases ht : type = 1
        · rw [if_pos ht] at hc
          split_ifs at hc <;> simp [← Except.ok.inj hc]
        · rw [if_neg ht] at hc
          rw [← Except.ok.inj hc]; exact hf

theorem priority_ne_none (h : Host) (L : List String) :
    ∀ (primary_type r : String), GetNetworkType.priority h primary_type L = .ok r →
      (primary_type ≠ "none" ∨ L ≠ []) → r ≠ "none" := by
  induction L with
  | nil =>
    intro p r hr hp
    simp only [GetNetworkType.priority] at hr
    rcases hp with hp | hp
    · rw [← Except.ok.inj hr]; exact hp
    · exact absurd rfl hp
  | cons x xs ih =>
    intro p r hr _
    simp only [GetNetworkType.priority] at hr
    split at hr
    · exact absurd hr (by simp)
    · rename_i c hc
      have hcases := GetInterfaceType_cases h x c hc
      split_ifs at hr with h1 h2 h3
      · rw [← Except.ok.inj hr]; decide
      · exact ih "wifi" r hr (Or.inl (by decide))
      · exact ih "mobile" r hr (Or.inl (by decide))
      · refine ih p r hr (Or.inl ?_)
        intro hp
        rcases hcases with hw | he | hm
        · exact h2 ⟨hw, by rw [hp]; decide⟩
        · exact h1 he
        · exact h3 ⟨hm, hp⟩

/-- The two fields compared by the derived-field law, for a host held fixed: `networkType` is
other than "none" exactly when `IsConnected` holds and some entry survives the filter. -/
theorem networkType_ne_none_iff (h : Host) (nt : String) (hnt : GetNetworkType h = .ok nt) :
    nt ≠ "none" ↔
      (IsConnected h = true ∧
        ∃ ifaddr, h.getifaddrs = some ifaddr ∧ ∃ ifa ∈ ifaddr, survives h ifa = true) := by
  cases hc : IsConnected h with
  | false =>
    simp only [GetNetworkType, hc, Bool.not_false, if_true] at hnt
    simp [← Except.ok.inj hnt]
  | true =>
    cases he : h.getifaddrs with
    | none => simp [IsConnected, he] at hc
    | some l =>
      rw [linux_GetNetworkType_of_enumeration h l hc he, active_interfaces_eq] at hnt
      by_cases hs : ∃ ifa ∈ l, survives h ifa = true
      · have hne : List.map ifaddrs.ifa_name (List.filter (survives h) l) ≠ [] := by
          obtain ⟨a, ha, has⟩ := hs
          intro hnil
          have : a ∈ List.filter (survives h) l := List.mem_filter.mpr ⟨ha, has⟩
          rw [List.map_eq_nil_iff] at hnil
          rw [hnil] at this
          simp at this
        have := priority_ne_none h _ "none" nt hnt (Or.inr hne)
        simp only [ne_eq, this, not_false_eq_true, true_and, true_iff]
        exact ⟨l, rfl, hs⟩
      · have hnil : List.filter (survives h) l = [] := by
          rw [List.filter_eq_nil_iff]
          intro a ha has
          exact hs ⟨a, ha, has⟩
        rw [hnil] at hnt
        simp only [List.map_nil, GetNetworkType.priority] at hnt
        rw [← Except.ok.inj hnt]
        simp only [ne_eq, not_true_eq_false, true_and, false_iff]
        rintro ⟨l', hl', hs'⟩
        rw [Option.some.inj hl'] at hs
        exact hs hs'

theorem IsConnectedToWifiOrEthernet_of (h : Host) (nt : String)
    (hnt : GetNetworkType h = .ok nt) :
    IsConnectedToWifiOrEthernet h = .ok (nt == "wifi" || nt == "ethernet") := by
  simp [IsConnectedToWifiOrEthernet, hnt]

end NetworkServiceLinux

theorem MyApplication.send_network_update_fixed (self : MyApplication)
    (h : NetworkServiceLinux.Host) (now : Int) (nt : String)
    (hch : self.event_channel = true) (hnt : NetworkServiceLinux.GetNetworkType h = .ok nt) :
    MyApplication.send_network_update self (SendReads.fixed h now) =
      .ok { self with sent := self.sent ++
        [⟨NetworkServiceLinux.IsConnected h, nt == "wifi" || nt == "ethernet", nt, now⟩] } := by
  simp [MyApplication.send_network_update, SendReads.fixed, hch, hnt,
    NetworkServiceLinux.IsConnectedToWifiOrEthernet_of h nt hnt]

/-- C4, as stated, fails: with `eth0` holding an address while its operational state is `down`,
the snapshot built by `send_network_update` from that one platform state has
`isConnected = true` and `networkType = "none"`. -/
theorem C4_counterexample :
    ∃ s : Snapshot,
      MyApplication.send_network_update MyApplication.activated
        (SendReads.fixed NetworkServiceLinux.host_eth0_down 1700000000000) =
          .ok { MyApplication.activated with sent := [s] } ∧
      s.isConnected = true ∧ s.networkType = "none" ∧
      s.isConnected ≠ decide (s.networkType ≠ "none") :=
  ⟨⟨true, false, "none", 1700000000000⟩, by decide, rfl, rfl, by decide⟩

/-- C4, amended. For a platform state held fixed while the snapshot is built and on which
`GetNetworkType` returns, `send_network_update` sends one snapshot whose `isConnected` is the
value of `IsConnected` and whose `networkType` is the value of `GetNetworkType`; a `networkType`
other than "none" implies `isConnected`; and `isConnected == (networkType != "none")` holds
exactly when `IsConnected` being true comes with some listed entry that survives the filter of
the enumeration loop (IPv4, name other than `lo`, address other than 0, operational state
`up`). -/
theorem C4_isConnected_amended (self : MyApplication) (h : NetworkServiceLinux.Host) (now : Int)
    (nt : String) (hch : self.event_channel = true)
    (hnt : NetworkServiceLinux.GetNetworkType h = .ok nt) :
    ∃ s : Snapshot,
      MyApplication.send_network_update self (SendReads.fixed h now) =
        .ok { self with sent := self.sent ++ [s] } ∧
      s.isConnected = NetworkServiceLinux.IsConnected h ∧ s.networkType = nt ∧
      (s.networkType ≠ "none" → s.isConnected = true) ∧
      (s.isConnected = decide (s.networkType ≠ "none") ↔
        (NetworkServiceLinux.IsConnected h = true →
          ∃ ifaddr, h.getifaddrs = some ifaddr ∧
            ∃ ifa ∈ ifaddr, NetworkServiceLinux.survives h ifa = true)) := by
  refine ⟨⟨NetworkServiceLinux.IsConnected h, nt == "wifi" || nt == "ethernet", nt, now⟩,
    MyApplication.send_network_update_fixed self h now nt hch hnt, rfl, rfl, ?_, ?_⟩
  · intro hne
    exact ((NetworkServiceLinux.networkType_ne_none_iff h nt hnt).mp hne).1
  · have hiff := NetworkServiceLinux.networkType_ne_none_iff h nt hnt
    show NetworkServiceLinux.IsConnected h = decide (nt ≠ "none") ↔ _
    cases hc : NetworkServiceLinux.IsConnected h with
    | false =>
      rw [hc] at hiff
      have : ¬ nt ≠ "none" := fun hne => by simpa using (hiff.mp hne).1
      simp [this]
    | true =>
      rw [hc] at hiff
      constructor
      · intro heq _
        have hne : nt ≠ "none" := by simpa using heq.symm
        exact (hiff.mp hne).2
      · intro hs
        have hne : nt ≠ "none" := hiff.mpr ⟨rfl, hs rfl⟩
        simp [hne]

/-- Witness of the amended C4: the host with `eth0` up. -/
theorem C4_isConnected_amended_witness :
    ∃ s : Snapshot,
      MyApplication.send_network_update MyApplication.activated
        (SendReads.fixed NetworkServiceLinux.host_eth0 1700000000000) =
          .ok { MyApplication.activated with sent := [] ++ [s] } ∧
      s.isConnected = true ∧ s.networkType = "ethernet" :=
  (C4_isConnected_amended MyApplication.activated NetworkServiceLinux.host_eth0 1700000000000
    "ethernet" rfl (by decide)).imp fun _ hs => ⟨hs.1, hs.2.1.trans (by decide), hs.2.2.1⟩

/-- C5. For a platform state held fixed while the snapshot is built, the snapshot sent by
`send_network_update` (Linux, when `GetNetworkType` returns) and by `SendNetworkUpdate`
(Windows) has `networkType` equal to the value of `GetNetworkType` and
`isWifiOrEthernet == (networkType == "wifi" || networkType == "ethernet")`;
`IsConnectedToWifiOrEthernet` is exactly that predicate of `GetNetworkType`. -/
theorem C5_isWifiOrEthernet_derived :
    (∀ (self : MyApplication) (h : NetworkServiceLinux.Host) (now : Int) (nt : String),
      self.event_channel = true → NetworkServiceLinux.GetNetworkType h = .ok nt →
      ∃ s : Snapshot,
        MyApplication.send_network_update self (SendReads.fixed h now) =
          .ok { self with sent := self.sent ++ [s] } ∧
        s.networkType = nt ∧
        s.isWifiOrEthernet = decide (s.networkType = "wifi" ∨ s.networkType = "ethernet")) ∧
    (∀ h : NetworkServiceLinux.Host,
      NetworkServiceLinux.IsConnectedToWifiOrEthernet h =
        (NetworkServiceLinux.GetNetworkType h).map
          (fun networkType => decide (networkType = "wifi" ∨ networkType = "ethernet"))) ∧
    (∀ (k : NetworkServiceWindows.IfTypeConstants) (self : FlutterWindow)
      (h : NetworkServiceWindows.Host) (now : Int), self.event_sink_ = true →
      ∃ s : Snapshot,
        FlutterWindow.SendNetworkUpdate k self (SendReads.fixed h now) =
          { self with sent := self.sent ++ [s] } ∧
        s.networkType = NetworkServiceWindows.GetNetworkType k h ∧
        s.isWifiOrEthernet = decide (s.networkType = "wifi" ∨ s.networkType = "ethernet")) ∧
    (∀ (k : NetworkServiceWindows.IfTypeConstants) (h : NetworkServiceWindows.Host),
      NetworkServiceWindows.IsConnectedToWifiOrEthernet k h =
        decide (NetworkServiceWindows.GetNetworkType k h = "wifi" ∨
          NetworkServiceWindows.GetNetworkType k h = "ethernet")) := by
  refine ⟨fun self h now nt hch hnt => ?_, fun h => ?_, fun k self h now hs => ?_, fun k h => ?_⟩
  · refine ⟨⟨NetworkServiceLinux.IsConnected h, nt == "wifi" || nt == "ethernet", nt, now⟩,
      MyApplication.send_network_update_fixed self h now nt hch hnt, rfl, ?_⟩
    exact beq_or_beq_eq_decide _ _ _
  · unfold NetworkServiceLinux.IsConnectedToWifiOrEthernet
    cases NetworkServiceLinux.GetNetworkType h with
    | error e => rfl
    | ok nt => exact congrArg Except.ok (beq_or_beq_eq_decide _ _ _)
  · refine ⟨⟨NetworkServiceWindows.IsConnected h,
      NetworkServiceWindows.IsConnectedToWifiOrEthernet k h,
      NetworkServiceWindows.GetNetworkType k h, now⟩, ?_, rfl, ?_⟩
    · simp [FlutterWindow.SendNetworkUpdate, SendReads.fixed, hs]
    · exact beq_or_beq_eq_decide _ _ _
  · exact beq_or_beq_eq_decide _ _ _

/-- Witness of C5: the Linux host with `eth0` up and a Windows host with one wireless adapter. -/
theorem C5_isWifiOrEthernet_derived_witness :
    (∃ s : Snapshot,
      MyApplication.send_network_update MyApplication.activated
        (SendReads.fixed NetworkServiceLinux.host_eth0 1700000000000) =
          .ok { MyApplication.activated with sent := [] ++ [s] } ∧
      s.networkType = "ethernet" ∧
      s.isWifiOrEthernet = decide (s.networkType = "wifi" ∨ s.networkType = "ethernet")) ∧
    (∃ s : Snapshot,
      FlutterWindow.SendNetworkUpdate NetworkServiceWindows.sample_constants FlutterWindow.listening
        (SendReads.fixed (NetworkServiceWindows.host_with [⟨"10.0.0.2", 71⟩]) 1700000000000) =
          { FlutterWindow.listening with sent := [] ++ [s] } ∧
      s.networkType =
        NetworkServiceWindows.GetNetworkType NetworkServiceWindows.sample_constants
          (NetworkServiceWindows.host_with [⟨"10.0.0.2", 71⟩]) ∧
      s.isWifiOrEthernet = decide (s.networkType = "wifi" ∨ s.networkType = "ethernet")) :=
  ⟨C5_isWifiOrEthernet_derived.1 MyApplication.activated NetworkServiceLinux.host_eth0
      1700000000000 "ethernet" rfl (by decide),
    C5_isWifiOrEthernet_derived.2.2.1 NetworkServiceWindows.sample_constants FlutterWindow.listening
      (NetworkServiceWindows.host_with [⟨"10.0.0.2", 71⟩]) 1700000000000 rfl⟩

/-! ## The monitor -/

theorem NetworkServiceLinux.triple_of (h : NetworkServiceLinux.Host) (nt : String)
    (hnt : NetworkServiceLinux.GetNetworkType h = .ok nt) :
    NetworkServiceLinux.triple h =
      .ok (nt, NetworkServiceLinux.IsConnected h, nt == "wifi" || nt == "ethernet") := by
  simp [NetworkServiceLinux.triple, hnt, NetworkServiceLinux.IsConnectedToWifiOrEthernet]

theorem NetworkServiceLinux.linux_GetNetworkType_ne_empty (h : NetworkServiceLinux.Host) (nt : String)
    (hnt : NetworkServiceLinux.GetNetworkType h = .ok nt) : nt ≠ "" := by
  by_cases hn : nt = "none"
  · rw [hn]; decide
  · have hc := ((NetworkServiceLinux.networkType_ne_none_iff h nt hnt).mp hn)
    obtain ⟨hcon, l, hl, _⟩ := hc
    rw [NetworkServiceLinux.linux_GetNetworkType_of_enumeration h l hcon hl] at hnt
    have key : ∀ (L : List String) (p r : String), p ≠ "" →
        NetworkServiceLinux.GetNetworkType.priority h p L = .ok r → r ≠ "" := by
      intro L
      induction L with
      | nil =>
        intro p r hp hr
        simp only [NetworkServiceLinux.GetNetworkType.priority] at hr
        rw [← Except.ok.inj hr]; exact hp
      | cons x xs ih =>
        intro p r hp hr
        simp only [NetworkServiceLinux.GetNetworkType.priority] at hr
        split at hr
        · exact absurd hr (by simp)
        · split_ifs at hr
          · rw [← Except.ok.inj hr]; decide
          · exact ih "wifi" r (by decide) hr
          · exact ih "mobile" r (by decide) hr
          · exact ih p r hp hr
    exact key _ "none" nt (by decide) hnt

theorem NetworkServiceWindows.win_priority_ne_empty (k : NetworkServiceWindows.IfTypeConstants)
    (L : List NetworkServiceWindows.IP_ADAPTER_INFO) :
    ∀ p : String, p ≠ "" → NetworkServiceWindows.GetNetworkType.priority k p L ≠ "" := by
  induction L with
  | nil => intro p hp; simpa [NetworkServiceWindows.GetNetworkType.priority] using hp
  | cons x xs ih =>
    intro p hp
    simp only [NetworkServiceWindows.GetNetworkType.priority]
    split_ifs
    · decide
    · exact ih "wifi" (by decide)
    · exact ih "mobile" (by decide)
    · exact ih p hp
    · exact ih p hp

theorem NetworkServiceWindows.win_GetNetworkType_ne_empty (k : NetworkServiceWindows.IfTypeConstants)
    (h : NetworkServiceWindows.Host) : NetworkServiceWindows.GetNetworkType k h ≠ "" := by
  unfold NetworkServiceWindows.GetNetworkType
  split_ifs
  · decide
  · decide
  · decide
  · split
    · decide
    · exact NetworkServiceWindows.win_priority_ne_empty k _ "none" (by decide)

theorem MyApplication.linux_tick_fixed (self : MyApplication) (h : NetworkServiceLinux.Host)
    (now : Int) (nt : String) (l : LoopThread)
    (hch : self.event_channel = true) (hm : self.is_monitoring = true)
    (ht : self.monitoring_thread = some l) (hl : l.exited = false)
    (hnt : NetworkServiceLinux.GetNetworkType h = .ok nt) :
    MyApplication.tick self (LoopReads.fixed h now) =
      .ok (if (nt, NetworkServiceLinux.IsConnected h, nt == "wifi" || nt == "ethernet") ≠
            (l.lastNetworkType, l.lastIsConnected, l.lastIsWifiOrEthernet) then
          { self with
            monitoring_thread :=
              some ⟨nt, NetworkServiceLinux.IsConnected h, nt == "wifi" || nt == "ethernet", false⟩,
            sent := self.sent ++
              [⟨NetworkServiceLinux.IsConnected h, nt == "wifi" || nt == "ethernet", nt, now⟩] }
        else self) := by
  have hw := NetworkServiceLinux.IsConnectedToWifiOrEthernet_of h nt hnt
  by_cases hd : (nt, NetworkServiceLinux.IsConnected h, nt == "wifi" || nt == "ethernet") ≠
      (l.lastNetworkType, l.lastIsConnected, l.lastIsWifiOrEthernet)
  · rw [if_pos hd]
    have hd' : nt ≠ l.lastNetworkType ∨ NetworkServiceLinux.IsConnected h ≠ l.lastIsConnected ∨
        (nt == "wifi" || nt == "ethernet") ≠ l.lastIsWifiOrEthernet := by
      by_contra hcon
      push_neg at hcon
      exact hd (Prod.ext hcon.1 (Prod.ext hcon.2.1 hcon.2.2))
    simp only [MyApplication.tick, ht, hl, MyApplication.loop_iteration, hm, LoopReads.fixed,
      hnt, hw, if_true, hd', Bool.false_eq_true, if_false]
    exact MyApplication.send_network_update_fixed _ h now nt hch hnt
  · rw [if_neg hd]
    have hd' : ¬ (nt ≠ l.lastNetworkType ∨ NetworkServiceLinux.IsConnected h ≠ l.lastIsConnected ∨
        (nt == "wifi" || nt == "ethernet") ≠ l.lastIsWifiOrEthernet) := by
      push_neg at hd
      simp only [Prod.mk.injEq] at hd
      rintro (a | a | a)
      · exact a hd.1
      · exact a hd.2.1
      · exact a hd.2.2
    simp only [MyApplication.tick, ht, hl, MyApplication.loop_iteration, hm, LoopReads.fixed,
      hnt, hw, if_true, hd', Bool.false_eq_true, if_false]

theorem MyApplication.linux_run_ticks (ticks : List (NetworkServiceLinux.Host × Int)) :
    ∀ (self : MyApplication) (l : LoopThread), self.event_channel = true →
      self.is_monitoring = true → self.monitoring_thread = some l → l.exited = false →
      (∀ t ∈ ticks, ∃ nt, NetworkServiceLinux.GetNetworkType t.1 = .ok nt) →
      ∃ s, MyApplication.run self
          (ticks.map fun t => Event.tick (LoopReads.fixed t.1 t.2)) = .ok s ∧
        s.sent.length = self.sent.length +
          changes (.ok (l.lastNetworkType, l.lastIsConnected, l.lastIsWifiOrEthernet))
            (ticks.map fun t => NetworkServiceLinux.triple t.1) := by
  induction ticks with
  | nil => intro self l _ _ _ _ _; exact ⟨self, rfl, rfl⟩
  | cons t ts ih =>
    intro self l hch hm ht hl hall
    obtain ⟨nt, hnt⟩ := hall t (List.mem_cons_self t ts)
    have hall' : ∀ t ∈ ts, ∃ nt, NetworkServiceLinux.GetNetworkType t.1 = .ok nt :=
      fun u hu => hall u (List.mem_cons_of_mem t hu)
    have hstep := MyApplication.linux_tick_fixed self t.1 t.2 nt l hch hm ht hl hnt
    have htr := NetworkServiceLinux.triple_of t.1 nt hnt
    simp only [List.map_cons, MyApplication.run, MyApplication.step, hstep, changes, htr]
    by_cases hd : (nt, NetworkServiceLinux.IsConnected t.1, nt == "wifi" || nt == "ethernet") ≠
        (l.lastNetworkType, l.lastIsConnected, l.lastIsWifiOrEthernet)
    · have hd' : (Except.ok (nt, NetworkServiceLinux.IsConnected t.1,
          nt == "wifi" || nt == "ethernet") : Except StdException (String × Bool × Bool)) ≠
          .ok (l.lastNetworkType, l.lastIsConnected, l.lastIsWifiOrEthernet) :=
        fun e => hd (Except.ok.inj e)
      rw [if_pos hd, if_pos hd']
      obtain ⟨s, hs, hlen⟩ := ih
        { self with
          monitoring_thread := some ⟨nt, NetworkServiceLinux.IsConnected t.1,
            nt == "wifi" || nt == "ethernet", false⟩,
          sent := self.sent ++ [⟨NetworkServiceLinux.IsConnected t.1,
            nt == "wifi" || nt == "ethernet", nt, t.2⟩] }
        ⟨nt, NetworkServiceLinux.IsConnected t.1, nt == "wifi" || nt == "ethernet", false⟩
        hch hm rfl rfl hall'
      refine ⟨s, hs, ?_⟩
      rw [hlen]
      simp only [List.length_append, List.length_singleton]
      omega
    · have hd' : ¬ ((Except.ok (nt, NetworkServiceLinux.IsConnected t.1,
          nt == "wifi" || nt == "ethernet") : Except StdException (String × Bool × Bool)) ≠
          .ok (l.lastNetworkType, l.lastIsConnected, l.lastIsWifiOrEthernet)) := by
        push_neg at hd
        rw [hd]
        simp
      rw [if_neg hd, if_neg hd']
      obtain ⟨s, hs, hlen⟩ := ih self l hch hm ht hl hall'
      refine ⟨s, hs, ?_⟩
      rw [hlen]
      push_neg at hd
      rw [hd]
      omega

theorem FlutterWindow.win_tick_fixed (k : NetworkServiceWindows.IfTypeConstants)
    (self : FlutterWindow) (h : NetworkServiceWindows.Host) (now : Int) (l : LoopThread)
    (hch : self.event_sink_ = true) (hm : self.is_monitoring_ = true)
    (ht : self.monitoring_thread_ = some l) (hl : l.exited = false) :
    FlutterWindow.tick k self (LoopReads.fixed h now) =
      if NetworkServiceWindows.triple k h ≠
          (l.lastNetworkType, l.lastIsConnected, l.lastIsWifiOrEthernet) then
        { self with
          monitoring_thread_ :=
            some ⟨NetworkServiceWindows.GetNetworkType k h, NetworkServiceWindows.IsConnected h,
              NetworkServiceWindows.IsConnectedToWifiOrEthernet k h, false⟩,
          sent := self.sent ++
            [⟨NetworkServiceWindows.IsConnected h,
              NetworkServiceWindows.IsConnectedToWifiOrEthernet k h,
              NetworkServiceWindows.GetNetworkType k h, now⟩] }
      else self := by
  by_cases hd : NetworkServiceWindows.triple k h ≠
      (l.lastNetworkType, l.lastIsConnected, l.lastIsWifiOrEthernet)
  · rw [if_pos hd]
    have hd' : NetworkServiceWindows.GetNetworkType k h ≠ l.lastNetworkType ∨
        NetworkServiceWindows.IsConnected h ≠ l.lastIsConnected ∨
        NetworkServiceWindows.IsConnectedToWifiOrEthernet k h ≠ l.lastIsWifiOrEthernet := by
      by_contra hcon
      push_neg at hcon
      exact hd (Prod.ext hcon.1 (Prod.ext hcon.2.1 hcon.2.2))
    simp only [FlutterWindow.tick, ht, hl, FlutterWindow.loop_iteration, hm, LoopReads.fixed,
      if_true, hd', Bool.false_eq_true, if_false, FlutterWindow.SendNetworkUpdate, hch,
      SendReads.fixed]
  · rw [if_neg hd]
    have hd' : ¬ (NetworkServiceWindows.GetNetworkType k h ≠ l.lastNetworkType ∨
        NetworkServiceWindows.IsConnected h ≠ l.lastIsConnected ∨
        NetworkServiceWindows.IsConnectedToWifiOrEthernet k h ≠ l.lastIsWifiOrEthernet) := by
      push_neg at hd
      simp only [NetworkServiceWindows.triple, Prod.mk.injEq] at hd
      rintro (a | a | a)
      · exact a hd.1
      · exact a hd.2.1
      · exact a hd.2.2
    simp only [FlutterWindow.tick, ht, hl, FlutterWindow.loop_iteration, hm, LoopReads.fixed,
      if_true, hd', Bool.false_eq_true, if_false]

theorem FlutterWindow.win_run_ticks (k : NetworkServiceWindows.IfTypeConstants)
    (ticks : List (NetworkServiceWindows.Host × Int)) :
    ∀ (self : FlutterWindow) (l : LoopThread), self.event_sink_ = true →
      self.is_monitoring_ = true → self.monitoring_thread_ = some l → l.exited = false →
      ∃ s, FlutterWindow.run k self
          (ticks.map fun t => Event.tick (LoopReads.fixed t.1 t.2)) = .ok s ∧
        s.sent.length = self.sent.length +
          changes (l.lastNetworkType, l.lastIsConnected, l.lastIsWifiOrEthernet)
            (ticks.map fun t => NetworkServiceWindows.triple k t.1) := by
  induction ticks with
  | nil => intro self l _ _ _ _; exact ⟨self, rfl, rfl⟩
  | cons t ts ih =>
    intro self l hch hm ht hl
    have hstep := FlutterWindow.win_tick_fixed k self t.1 t.2 l hch hm ht hl
    simp only [List.map_cons, FlutterWindow.run, FlutterWindow.step, hstep, changes]
    by_cases hd : NetworkServiceWindows.triple k t.1 ≠
        (l.lastNetworkType, l.lastIsConnected, l.lastIsWifiOrEthernet)
    · rw [if_pos hd, if_pos hd]
      obtain ⟨s, hs, hlen⟩ := ih
        { self with
          monitoring_thread_ :=
            some ⟨NetworkServiceWindows.GetNetworkType k t.1,
              NetworkServiceWindows.IsConnected t.1,
              NetworkServiceWindows.IsConnectedToWifiOrEthernet k t.1, false⟩,
          sent := self.sent ++
            [⟨NetworkServiceWindows.IsConnected t.1,
              NetworkServiceWindows.IsConnectedToWifiOrEthernet k t.1,
              NetworkServiceWindows.GetNetworkType k t.1, t.2⟩] }
        ⟨NetworkServiceWindows.GetNetworkType k t.1, NetworkServiceWindows.IsConnected t.1,
          NetworkServiceWindows.IsConnectedToWifiOrEthernet k t.1, false⟩
        hch hm rfl rfl
      refine ⟨s, hs, ?_⟩
      rw [hlen]
      simp only [List.length_append, List.length_singleton, NetworkServiceWindows.triple]
      omega
    · rw [if_neg hd, if_neg hd]
      obtain ⟨s, hs, hlen⟩ := ih self l hch hm ht hl
      refine ⟨s, hs, ?_⟩
      rw [hlen]
      push_neg at hd
      rw [hd]
      omega

/-- C6, as stated, fails: a Start followed by one loop tick, the platform state being the same
at both, emits two snapshots carrying the same triple, where the stated count is 1 + 0 (the
tick repeats the triple emitted just before). On Linux and on Windows. -/
theorem C6_counterexample :
    (∃ s : MyApplication,
      MyApplication.run MyApplication.activated
        [.start (SendReads.fixed NetworkServiceLinux.host_eth0 1700000000000),
          .tick (LoopReads.fixed NetworkServiceLinux.host_eth0 1700000001000)] = .ok s ∧
      s.sent = [⟨true, true, "ethernet", 1700000000000⟩,
        ⟨true, true, "ethernet", 1700000001000⟩] ∧
      s.sent.length ≠
        1 + changes (NetworkServiceLinux.triple NetworkServiceLinux.host_eth0)
          [NetworkServiceLinux.triple NetworkServiceLinux.host_eth0]) ∧
    (∃ s : FlutterWindow,
      FlutterWindow.run NetworkServiceWindows.sample_constants FlutterWindow.listening
        [.start (SendReads.fixed (NetworkServiceWindows.host_with [⟨"10.0.0.2", 71⟩])
            1700000000000),
          .tick (LoopReads.fixed (NetworkServiceWindows.host_with [⟨"10.0.0.2", 71⟩])
            1700000001000)] = .ok s ∧
      s.sent = [⟨true, true, "wifi", 1700000000000⟩, ⟨true, true, "wifi", 1700000001000⟩] ∧
      s.sent.length ≠
        1 + changes
          (NetworkServiceWindows.triple NetworkServiceWindows.sample_constants
            (NetworkServiceWindows.host_with [⟨"10.0.0.2", 71⟩]))
          [NetworkServiceWindows.triple NetworkServiceWindows.sample_constants
            (NetworkServiceWindows.host_with [⟨"10.0.0.2", 71⟩])]) :=
  ⟨⟨⟨true, some ⟨"ethernet", true, true, false⟩, true,
      [⟨true, true, "ethernet", 1700000000000⟩, ⟨true, true, "ethernet", 1700000001000⟩]⟩,
      by decide, rfl, by decide⟩,
    ⟨⟨true, some ⟨"wifi", true, true, false⟩, true,
      [⟨true, true, "wifi", 1700000000000⟩, ⟨true, true, "wifi", 1700000001000⟩]⟩,
      by decide, rfl, by decide⟩⟩

/-- C6, amended. With a sink attached and the monitor not running, Start followed by N loop
ticks (the platform state held fixed within each, the service returning on each) emits
1 (the Start-time emission) plus the number of ticks whose triple differs from the last-known
triple of the loop, which is `("", false, false)` before the first tick and the triple of the
preceding tick afterwards. So the first tick always emits, also when it repeats the Start-time
snapshot, and a later tick that repeats the triple of the tick before it emits nothing. -/
theorem C6_emission_count_amended :
    (∀ (self : MyApplication) (h0 : NetworkServiceLinux.Host) (now0 : Int)
      (ticks : List (NetworkServiceLinux.Host × Int)),
      self.event_channel = true → self.is_monitoring = false → self.monitoring_thread = none →
      (∃ nt, NetworkServiceLinux.GetNetworkType h0 = .ok nt) →
      (∀ t ∈ ticks, ∃ nt, NetworkServiceLinux.GetNetworkType t.1 = .ok nt) →
      (∃ s, MyApplication.run self
          (.start (SendReads.fixed h0 now0) ::
            ticks.map fun t => Event.tick (LoopReads.fixed t.1 t.2)) = .ok s ∧
        s.sent.length = self.sent.length + 1 +
          changes (.ok ("", false, false))
            (ticks.map fun t => NetworkServiceLinux.triple t.1)) ∧
      ∀ t rest, ticks = t :: rest →
        changes (.ok ("", false, false)) (ticks.map fun t => NetworkServiceLinux.triple t.1) =
          1 + changes (NetworkServiceLinux.triple t.1)
            (rest.map fun t => NetworkServiceLinux.triple t.1)) ∧
    (∀ (k : NetworkServiceWindows.IfTypeConstants) (self : FlutterWindow)
      (h0 : NetworkServiceWindows.Host) (now0 : Int)
      (ticks : List (NetworkServiceWindows.Host × Int)),
      self.event_sink_ = true → self.is_monitoring_ = false → self.monitoring_thread_ = none →
      (∃ s, FlutterWindow.run k self
          (.start (SendReads.fixed h0 now0) ::
            ticks.map fun t => Event.tick (LoopReads.fixed t.1 t.2)) = .ok s ∧
        s.sent.length = self.sent.length + 1 +
          changes ("", false, false) (ticks.map fun t => NetworkServiceWindows.triple k t.1)) ∧
      ∀ t rest, ticks = t :: rest →
        changes ("", false, false) (ticks.map fun t => NetworkServiceWindows.triple k t.1) =
          1 + changes (NetworkServiceWindows.triple k t.1)
            (rest.map fun t => NetworkServiceWindows.triple k t.1)) := by
  constructor
  · intro self h0 now0 ticks hch hm ht hstart hall
    constructor
    · obtain ⟨nt0, hnt0⟩ := hstart
      have hsend := MyApplication.send_network_update_fixed
        { self with is_monitoring := true, monitoring_thread := some ⟨"", false, false, false⟩ }
        h0 now0 nt0 hch hnt0
      obtain ⟨s, hs, hlen⟩ := MyApplication.linux_run_ticks ticks
        { self with
          is_monitoring := true, monitoring_thread := some ⟨"", false, false, false⟩,
          sent := self.sent ++ [⟨NetworkServiceLinux.IsConnected h0,
            nt0 == "wifi" || nt0 == "ethernet", nt0, now0⟩] }
        ⟨"", false, false, false⟩ hch rfl rfl rfl hall
      refine ⟨s, ?_, ?_⟩
      · simp only [MyApplication.run, MyApplication.step, MyApplication.start_network_monitoring,
          hm, ht, Bool.false_eq_true, if_false, hsend]
        exact hs
      · rw [hlen]
        simp only [List.length_append, List.length_singleton]
    · intro t rest hticks
      obtain ⟨nt, hnt⟩ := hall t (by rw [hticks]; exact List.mem_cons_self t rest)
      have hne := NetworkServiceLinux.linux_GetNetworkType_ne_empty t.1 nt hnt
      have htr := NetworkServiceLinux.triple_of t.1 nt hnt
      have hd : NetworkServiceLinux.triple t.1 ≠ .ok ("", false, false) := by
        rw [htr]
        intro e
        exact hne (congrArg Prod.fst (Except.ok.inj e))
      rw [hticks]
      simp only [List.map_cons, changes, if_pos hd]
  · intro k self h0 now0 ticks hch hm ht
    constructor
    · obtain ⟨s, hs, hlen⟩ := FlutterWindow.win_run_ticks k ticks
        (FlutterWindow.SendNetworkUpdate k
          { self with is_monitoring_ := true, monitoring_thread_ := some ⟨"", false, false, false⟩ }
          (SendReads.fixed h0 now0))
        ⟨"", false, false, false⟩ (by simp [FlutterWindow.SendNetworkUpdate, hch])
        (by simp [FlutterWindow.SendNetworkUpdate, hch])
        (by simp [FlutterWindow.SendNetworkUpdate, hch]) rfl
      refine ⟨s, ?_, ?_⟩
      · simp only [FlutterWindow.run, FlutterWindow.step, FlutterWindow.StartNetworkMonitoring,
          hm, ht, Bool.false_eq_true, if_false]
        exact hs
      · rw [hlen]
        simp [FlutterWindow.SendNetworkUpdate, hch]
    · intro t rest hticks
      have hd : NetworkServiceWindows.triple k t.1 ≠ ("", false, false) := by
        intro e
        exact NetworkServiceWindows.win_GetNetworkType_ne_empty k t.1 (congrArg Prod.fst e)
      rw [hticks]
      simp only [List.map_cons, changes, if_pos hd]

/-- Witness of the amended C6 on Linux: Start on the host with `eth0` up, then three ticks, the
first two on the same host and the third with a mobile and a wireless interface: three
emissions, from Start, from the first tick and from the third. -/
theorem C6_emission_count_amended_witness :
    (∃ s, MyApplication.run MyApplication.activated
        [.start (SendReads.fixed NetworkServiceLinux.host_eth0 1700000000000),
          .tick (LoopReads.fixed NetworkServiceLinux.host_eth0 1700000001000),
          .tick (LoopReads.fixed NetworkServiceLinux.host_eth0 1700000002000),
          .tick (LoopReads.fixed NetworkServiceLinux.host_mobile_wifi 1700000003000)] = .ok s ∧
      s.sent.length = 0 + 1 +
        changes (.ok ("", false, false))
          [NetworkServiceLinux.triple NetworkServiceLinux.host_eth0,
            NetworkServiceLinux.triple NetworkServiceLinux.host_eth0,
            NetworkServiceLinux.triple NetworkServiceLinux.host_mobile_wifi]) ∧
    changes (Except.ok ("", false, false))
      [NetworkServiceLinux.triple NetworkServiceLinux.host_eth0,
        NetworkServiceLinux.triple NetworkServiceLinux.host_eth0,
        NetworkServiceLinux.triple NetworkServiceLinux.host_mobile_wifi] = 2 := by
  refine ⟨(C6_emission_count_amended.1 MyApplication.activated NetworkServiceLinux.host_eth0
    1700000000000
    [(NetworkServiceLinux.host_eth0, 1700000001000),
      (NetworkServiceLinux.host_eth0, 1700000002000),
      (NetworkServiceLinux.host_mobile_wifi, 1700000003000)] rfl rfl rfl
    ⟨"ethernet", by decide⟩ ?_).1, by decide⟩
  intro t ht
  simp only [List.mem_cons, List.mem_singleton, List.not_mem_nil, or_false] at ht
  rcases ht with rfl | rfl | rfl
  · exact ⟨"ethernet", by decide⟩
  · exact ⟨"ethernet", by decide⟩
  · exact ⟨"wifi", by decide⟩

theorem MyApplication.linux_step_idle (self : MyApplication) (e : Event NetworkServiceLinux.Host)
    (hm : self.is_monitoring = false) (ht : self.monitoring_thread = none)
    (he : e.isStart = false) : MyApplication.step self e = .ok self := by
  cases e with
  | start w => simp [Event.isStart] at he
  | stop => simp [MyApplication.step, MyApplication.stop_network_monitoring, hm]
  | tick w => simp [MyApplication.step, MyApplication.tick, ht]

theorem MyApplication.linux_run_idle (es : List (Event NetworkServiceLinux.Host))
    (self : MyApplication) (hm : self.is_monitoring = false)
    (ht : self.monitoring_thread = none) (he : ∀ e ∈ es, e.isStart = false) :
    MyApplication.run self es = .ok self := by
  induction es with
  | nil => rfl
  | cons e es ih =>
    simp only [MyApplication.run,
      MyApplication.linux_step_idle self e hm ht (he e (List.mem_cons_self e es))]
    exact ih (fun e' he' => he e' (List.mem_cons_of_mem e he'))

theorem FlutterWindow.win_step_idle (k : NetworkServiceWindows.IfTypeConstants)
    (self : FlutterWindow) (e : Event NetworkServiceWindows.Host)
    (hm : self.is_monitoring_ = false) (ht : self.monitoring_thread_ = none)
    (he : e.isStart = false) : FlutterWindow.step k self e = .ok self := by
  cases e with
  | start w => simp [Event.isStart] at he
  | stop => simp [FlutterWindow.step, FlutterWindow.StopNetworkMonitoring, hm]
  | tick w => simp [FlutterWindow.step, FlutterWindow.tick, ht]

theorem FlutterWindow.win_run_idle (k : NetworkServiceWindows.IfTypeConstants)
    (es : List (Event NetworkServiceWindows.Host))
    (self : FlutterWindow) (hm : self.is_monitoring_ = false)
    (ht : self.monitoring_thread_ = none) (he : ∀ e ∈ es, e.isStart = false) :
    FlutterWindow.run k self es = .ok self := by
  induction es with
  | nil => rfl
  | cons e es ih =>
    simp only [FlutterWindow.run,
      FlutterWindow.win_step_idle k self e hm ht (he e (List.mem_cons_self e es))]
    exact ih (fun e' he' => he e' (List.mem_cons_of_mem e he'))

/-- C7. Start is idempotent: when `is_monitoring` is already true, Start returns the monitor
state unchanged (flag, thread, sent snapshots). Hence, from a monitor that is not running and has
a sink attached, two consecutive Start calls end in the state the first one produced: one loop
thread with fresh locals, the flag set, and exactly one snapshot sent. On Linux (the service
calls of the first Start returning) and on Windows. -/
theorem C7_start_idempotent :
    (∀ (self : MyApplication) (w : SendReads NetworkServiceLinux.Host),
      self.is_monitoring = true → MyApplication.start_network_monitoring self w = .ok self) ∧
    (∀ (self : MyApplication) (w1 w2 : SendReads NetworkServiceLinux.Host) (nt : String)
      (b : Bool), self.is_monitoring = false → self.monitoring_thread = none →
      self.event_channel = true →
      NetworkServiceLinux.IsConnectedToWifiOrEthernet w1.atIsConnectedToWifiOrEthernet = .ok b →
      NetworkServiceLinux.GetNetworkType w1.atGetNetworkType = .ok nt →
      ∃ s1, MyApplication.start_network_monitoring self w1 = .ok s1 ∧
        MyApplication.run self [.start w1, .start w2] = .ok s1 ∧
        s1.is_monitoring = true ∧ s1.monitoring_thread = some ⟨"", false, false, false⟩ ∧
        s1.sent = self.sent ++
          [⟨NetworkServiceLinux.IsConnected w1.atIsConnected, b, nt, w1.now⟩]) ∧
    (∀ (k : NetworkServiceWindows.IfTypeConstants) (self : FlutterWindow)
      (w : SendReads NetworkServiceWindows.Host),
      self.is_monitoring_ = true → FlutterWindow.StartNetworkMonitoring k self w = .ok self) ∧
    (∀ (k : NetworkServiceWindows.IfTypeConstants) (self : FlutterWindow)
      (w1 w2 : SendReads NetworkServiceWindows.Host),
      self.is_monitoring_ = false → self.monitoring_thread_ = none → self.event_sink_ = true →
      ∃ s1, FlutterWindow.StartNetworkMonitoring k self w1 = .ok s1 ∧
        FlutterWindow.run k self [.start w1, .start w2] = .ok s1 ∧
        s1.is_monitoring_ = true ∧ s1.monitoring_thread_ = some ⟨"", false, false, false⟩ ∧
        s1.sent = self.sent ++
          [⟨NetworkServiceWindows.IsConnected w1.atIsConnected,
            NetworkServiceWindows.IsConnectedToWifiOrEthernet k w1.atIsConnectedToWifiOrEthernet,
            NetworkServiceWindows.GetNetworkType k w1.atGetNetworkType, w1.now⟩]) := by
  refine ⟨fun self w hm => ?_, fun self w1 w2 nt b hm ht hch hb hnt => ?_,
    fun k self w hm => ?_, fun k self w1 w2 hm ht hch => ?_⟩
  · simp [MyApplication.start_network_monitoring, hm]
  · have h1 : MyApplication.start_network_monitoring self w1 =
        .ok { self with
          is_monitoring := true, monitoring_thread := some ⟨"", false, false, false⟩,
          sent := self.sent ++
            [⟨NetworkServiceLinux.IsConnected w1.atIsConnected, b, nt, w1.now⟩] } := by
      simp [MyApplication.start_network_monitoring, hm, ht, MyApplication.send_network_update,
        hch, hb, hnt]
    refine ⟨_, h1, ?_, rfl, rfl, rfl⟩
    simp only [MyApplication.run, MyApplication.step, h1]
    simp [MyApplication.start_network_monitoring]
  · simp [FlutterWindow.StartNetworkMonitoring, hm]
  · have h1 : FlutterWindow.StartNetworkMonitoring k self w1 =
        .ok { self with
          is_monitoring_ := true, monitoring_thread_ := some ⟨"", false, false, false⟩,
          sent := self.sent ++
            [⟨NetworkServiceWindows.IsConnected w1.atIsConnected,
              NetworkServiceWindows.IsConnectedToWifiOrEthernet k
                w1.atIsConnectedToWifiOrEthernet,
              NetworkServiceWindows.GetNetworkType k w1.atGetNetworkType, w1.now⟩] } := by
      simp [FlutterWindow.StartNetworkMonitoring, hm, ht, FlutterWindow.SendNetworkUpdate, hch]
    refine ⟨_, h1, ?_, rfl, rfl, rfl⟩
    simp only [FlutterWindow.run, FlutterWindow.step, h1]
    simp [FlutterWindow.StartNetworkMonitoring]

/-- Witness of C7: two Start calls on the activated Linux application, the host having `eth0`
up at the first and `eth0` down at the second. -/
theorem C7_start_idempotent_witness :
    ∃ s1, MyApplication.start_network_monitoring MyApplication.activated
        (SendReads.fixed NetworkServiceLinux.host_eth0 1700000000000) = .ok s1 ∧
      MyApplication.run MyApplication.activated
        [.start (SendReads.fixed NetworkServiceLinux.host_eth0 1700000000000),
          .start (SendReads.fixed NetworkServiceLinux.host_eth0_down 1700000005000)] = .ok s1 ∧
      s1.is_monitoring = true ∧ s1.monitoring_thread = some ⟨"", false, false, false⟩ ∧
      s1.sent = [] ++ [⟨NetworkServiceLinux.IsConnected NetworkServiceLinux.host_eth0, true,
        "ethernet", 1700000000000⟩] :=
  C7_start_idempotent.2.1 MyApplication.activated
    (SendReads.fixed NetworkServiceLinux.host_eth0 1700000000000)
    (SendReads.fixed NetworkServiceLinux.host_eth0_down 1700000005000) "ethernet" true
    rfl rfl rfl (by decide) (by decide)

/-- C8. Stop is a no-op when the monitor is not running: with `is_monitoring` false,
Stop returns the monitor state unchanged (nothing is joined, nothing fails, Stop always
returns). After any Stop the flag is false, so a second Stop changes nothing: Stop followed by
Stop equals a single Stop. On Linux and on Windows. -/
theorem C8_stop_noop_when_idle :
    (∀ self : MyApplication, self.is_monitoring = false →
      MyApplication.stop_network_monitoring self = self) ∧
    (∀ self : MyApplication,
      (MyApplication.stop_network_monitoring self).is_monitoring = false ∧
      MyApplication.stop_network_monitoring (MyApplication.stop_network_monitoring self) =
        MyApplication.stop_network_monitoring self ∧
      MyApplication.run self [.stop, .stop] = MyApplication.run self [.stop]) ∧
    (∀ self : FlutterWindow, self.is_monitoring_ = false →
      FlutterWindow.StopNetworkMonitoring self = self) ∧
    (∀ (k : NetworkServiceWindows.IfTypeConstants) (self : FlutterWindow),
      (FlutterWindow.StopNetworkMonitoring self).is_monitoring_ = false ∧
      FlutterWindow.StopNetworkMonitoring (FlutterWindow.StopNetworkMonitoring self) =
        FlutterWindow.StopNetworkMonitoring self ∧
      FlutterWindow.run k self [.stop, .stop] = FlutterWindow.run k self [.stop]) := by
  have hl : ∀ self : MyApplication,
      (MyApplication.stop_network_monitoring self).is_monitoring = false := by
    intro self
    unfold MyApplication.stop_network_monitoring
    split_ifs with hm
    · split <;> rfl
    · simpa using hm
  have hw : ∀ self : FlutterWindow,
      (FlutterWindow.StopNetworkMonitoring self).is_monitoring_ = false := by
    intro self
    unfold FlutterWindow.StopNetworkMonitoring
    split_ifs with hm
    · split <;> rfl
    · simpa using hm
  have hl0 : ∀ self : MyApplication, self.is_monitoring = false →
      MyApplication.stop_network_monitoring self = self := by
    intro self hm
    simp [MyApplication.stop_network_monitoring, hm]
  have hw0 : ∀ self : FlutterWindow, self.is_monitoring_ = false →
      FlutterWindow.StopNetworkMonitoring self = self := by
    intro self hm
    simp [FlutterWindow.StopNetworkMonitoring, hm]
  refine ⟨hl0, fun self => ⟨hl self, hl0 _ (hl self), ?_⟩, hw0,
    fun k self => ⟨hw self, hw0 _ (hw self), ?_⟩⟩
  · simp [MyApplication.run, MyApplication.step, hl0 _ (hl self)]
  · simp [FlutterWindow.run, FlutterWindow.step, hw0 _ (hw self)]

/-- Witness of C8: Stop on the activated Linux application, which is not running. -/
theorem C8_stop_noop_when_idle_witness :
    MyApplication.stop_network_monitoring MyApplication.activated = MyApplication.activated :=
  C8_stop_noop_when_idle.1 MyApplication.activated rfl

/-- C9. Shutdown: a Stop issued while the monitor is running returns a state whose flag is false
and which has no loop thread, the sink and the snapshots sent so far being untouched; from that
state every sequence of steps without a Start (loop ticks, further Stops) leaves the state as it
is, so nothing is sent until the next Start, also with the sink attached. On Linux and on
Windows. -/
theorem C9_no_emission_after_stop :
    (∀ self : MyApplication, self.is_monitoring = true →
      (MyApplication.stop_network_monitoring self).is_monitoring = false ∧
      (MyApplication.stop_network_monitoring self).monitoring_thread = none ∧
      (MyApplication.stop_network_monitoring self).event_channel = self.event_channel ∧
      (MyApplication.stop_network_monitoring self).sent = self.sent ∧
      ∀ es : List (Event NetworkServiceLinux.Host), (∀ e ∈ es, e.isStart = false) →
        ∃ s, MyApplication.run (MyApplication.stop_network_monitoring self) es = .ok s ∧
          s = MyApplication.stop_network_monitoring self ∧ s.sent = self.sent) ∧
    (∀ (k : NetworkServiceWindows.IfTypeConstants) (self : FlutterWindow),
      self.is_monitoring_ = true →
      (FlutterWindow.StopNetworkMonitoring self).is_monitoring_ = false ∧
      (FlutterWindow.StopNetworkMonitoring self).monitoring_thread_ = none ∧
      (FlutterWindow.StopNetworkMonitoring self).event_sink_ = self.event_sink_ ∧
      (FlutterWindow.StopNetworkMonitoring self).sent = self.sent ∧
      ∀ es : List (Event NetworkServiceWindows.Host), (∀ e ∈ es, e.isStart = false) →
        ∃ s, FlutterWindow.run k (FlutterWindow.StopNetworkMonitoring self) es = .ok s ∧
          s = FlutterWindow.StopNetworkMonitoring self ∧ s.sent = self.sent) := by
  constructor
  · intro self hm
    have h1 : (MyApplication.stop_network_monitoring self).is_monitoring = false := by
      simp only [MyApplication.stop_network_monitoring, hm, if_true]; split <;> rfl
    have h2 : (MyApplication.stop_network_monitoring self).monitoring_thread = none := by
      simp only [MyApplication.stop_network_monitoring, hm, if_true]
      split
      · rfl
      · assumption
    have h3 : (MyApplication.stop_network_monitoring self).event_channel =
        self.event_channel := by
      simp only [MyApplication.stop_network_monitoring, hm, if_true]; split <;> rfl
    have h4 : (MyApplication.stop_network_monitoring self).sent = self.sent := by
      simp only [MyApplication.stop_network_monitoring, hm, if_true]; split <;> rfl
    exact ⟨h1, h2, h3, h4, fun es hes =>
      ⟨_, MyApplication.linux_run_idle es _ h1 h2 hes, rfl, h4⟩⟩
  · intro k self hm
    have h1 : (FlutterWindow.StopNetworkMonitoring self).is_monitoring_ = false := by
      simp only [FlutterWindow.StopNetworkMonitoring, hm, if_true]; split <;> rfl
    have h2 : (FlutterWindow.StopNetworkMonitoring self).monitoring_thread_ = none := by
      simp only [FlutterWindow.StopNetworkMonitoring, hm, if_true]
      split
      · rfl
      · assumption
    have h3 : (FlutterWindow.StopNetworkMonitoring self).event_sink_ = self.event_sink_ := by
      simp only [FlutterWindow.StopNetworkMonitoring, hm, if_true]; split <;> rfl
    have h4 : (FlutterWindow.StopNetworkMonitoring self).sent = self.sent := by
      simp only [FlutterWindow.StopNetworkMonitoring, hm, if_true]; split <;> rfl
    exact ⟨h1, h2, h3, h4, fun es hes =>
      ⟨_, FlutterWindow.win_run_idle k es _ h1 h2 hes, rfl, h4⟩⟩

/-- Witness of C9: the Linux monitor running after one emission is stopped; two loop ticks on a
changed host and a further Stop then send nothing. -/
theorem C9_no_emission_after_stop_witness :
    ∃ s, MyApplication.run
        (MyApplication.stop_network_monitoring
          ⟨true, some ⟨"ethernet", true, true, false⟩, true,
            [⟨true, true, "ethernet", 1700000000000⟩]⟩)
        [.tick (LoopReads.fixed NetworkServiceLinux.host_mobile_wifi 1700000001000),
          .stop,
          .tick (LoopReads.fixed NetworkServiceLinux.host_eth0_down 1700000002000)] = .ok s ∧
      s = MyApplication.stop_network_monitoring
          ⟨true, some ⟨"ethernet", true, true, false⟩, true,
            [⟨true, true, "ethernet", 1700000000000⟩]⟩ ∧
      s.sent = [⟨true, true, "ethernet", 1700000000000⟩] :=
  (C9_no_emission_after_stop.1
    ⟨true, some ⟨"ethernet", true, true, false⟩, true, [⟨true, true, "ethernet", 1700000000000⟩]⟩
    rfl).2.2.2.2 _ (by
      intro e he
      simp only [List.mem_cons, List.mem_singleton, List.not_mem_nil, or_false] at he
      rcases he with rfl | rfl | rfl <;> rfl)

/-- C10, on the code: when the link-layer type file of `eth0` opens and its first line is empty
or holds no integer, `std::stoi` throws and `GetInterfaceType` lets the exception out
(`std::invalid_argument`; `std::out_of_range` for a number outside `int`), and so do
`GetNetworkType` and a loop tick of the monitor; with the file missing the same interface is
classified "ethernet" by the name patterns. -/
theorem C10_unparseable_type_throws :
    NetworkServiceLinux.GetInterfaceType (NetworkServiceLinux.host_eth0_type (some "")) "eth0" =
      .error .invalid_argument ∧
    NetworkServiceLinux.GetInterfaceType
      (NetworkServiceLinux.host_eth0_type (some "ether\n")) "eth0" = .error .invalid_argument ∧
    NetworkServiceLinux.GetInterfaceType
      (NetworkServiceLinux.host_eth0_type (some "4294967297\n")) "eth0" =
        .error .out_of_range ∧
    NetworkServiceLinux.GetInterfaceType (NetworkServiceLinux.host_eth0_type none) "eth0" =
      .ok "ethernet" ∧
    NetworkServiceLinux.GetNetworkType (NetworkServiceLinux.host_eth0_type (some "")) =
      .error .invalid_argument ∧
    MyApplication.tick ⟨true, some ⟨"", false, false, false⟩, true, []⟩
      (LoopReads.fixed (NetworkServiceLinux.host_eth0_type (some "")) 1700000000000) =
        .error (.uncaught .invalid_argument) := by
  refine ⟨by decide, by decide, by decide, by decide, by decide, by decide⟩

/-! ## The name patterns of `GetInterfaceType` -/

/-- C11, on the code: in the fallback branch (type file missing, or a type other than 1) the
name `usb0` is classified "ethernet", not "mobile": the fallback tests `wwan` and `ppp` but not
`usb`, which the type-1 branch does test (there `usb0` is "mobile"). Names with `wwan` or `ppp`
are "mobile" in the fallback branch. -/
theorem C11_fallback_misses_usb :
    NetworkServiceLinux.GetInterfaceType (NetworkServiceLinux.host_single "usb0" none) "usb0" =
      .ok "ethernet" ∧
    NetworkServiceLinux.GetInterfaceType
      (NetworkServiceLinux.host_single "usb0" (some "512\n")) "usb0" = .ok "ethernet" ∧
    NetworkServiceLinux.GetInterfaceType
      (NetworkServiceLinux.host_single "usb0" (some "1\n")) "usb0" = .ok "mobile" ∧
    NetworkServiceLinux.GetInterfaceType.fallback "usb0" = "ethernet" ∧
    NetworkServiceLinux.GetInterfaceType (NetworkServiceLinux.host_single "wwan0" none) "wwan0" =
      .ok "mobile" ∧
    NetworkServiceLinux.GetInterfaceType
      (NetworkServiceLinux.host_single "ppp0" (some "512\n")) "ppp0" = .ok "mobile" := by
  refine ⟨by decide, by decide, by decide, by decide, by decide, by decide⟩

/-! ## The loopback entry -/

namespace NetworkServiceLinux

theorem scan_filter_lo (l : List ifaddrs) :
    IsConnected.scan (l.filter fun ifa => ifa.ifa_name != "lo") = IsConnected.scan l := by
  induction l with
  | nil => rfl
  | cons ifa next ih =>
    by_cases hlo : ifa.ifa_name = "lo"
    · have hf : (ifa.ifa_name != "lo") = false := by simp [hlo]
      simp only [List.filter_cons, hf, Bool.false_eq_true, if_false, ih]
      cases ha : ifa.ifa_addr with
      | none => simp [IsConnected.scan, ha]
      | some addr => simp [IsConnected.scan, ha, hlo]
    · have hf : (ifa.ifa_name != "lo") = true := by simp [hlo]
      simp only [List.filter_cons, hf, if_true]
      cases ha : ifa.ifa_addr with
      | none => simp [IsConnected.scan, ha, ih]
      | some addr => simp [IsConnected.scan, ha, ih]

theorem active_interfaces_filter_lo (h : Host) (l : List ifaddrs) :
    GetNetworkType.active_interfaces h (l.filter fun ifa => ifa.ifa_name != "lo") =
      GetNetworkType.active_interfaces h l := by
  rw [active_interfaces_eq, active_interfaces_eq, List.filter_filter]
  congr 1
  apply List.filter_congr
  intro ifa _
  cases hs : survives h ifa with
  | false => simp
  | true =>
    unfold survives at hs
    cases ha : ifa.ifa_addr with
    | none => simp [ha] at hs
    | some addr =>
      simp only [ha, Bool.and_eq_true] at hs
      simp [hs.1.1.2]

theorem priority_listing (h : Host) (l : List ifaddrs) (L : List String) :
    ∀ p : String, GetNetworkType.priority (h.listing l) p L = GetNetworkType.priority h p L := by
  induction L with
  | nil => intro p; rfl
  | cons x xs ih =>
    intro p
    have hx : GetInterfaceType (h.listing l) x = GetInterfaceType h x := rfl
    simp only [GetNetworkType.priority, hx, ih]

theorem active_interfaces_listing (h : Host) (l l' : List ifaddrs) :
    GetNetworkType.active_interfaces (h.listing l) l' =
      GetNetworkType.active_interfaces h l' := by
  rw [active_interfaces_eq, active_interfaces_eq]
  have hs : survives (h.listing l) = survives h := by
    funext ifa
    rfl
  rw [hs]

theorem GetNetworkType_listing (h : Host) (l : List ifaddrs) :
    GetNetworkType (h.listing l) =
      if (h.socket_ok && IsConnected.scan l) = true then
        GetNetworkType.priority h "none" (GetNetworkType.active_interfaces h l)
      else .ok "none" := by
  have hc : IsConnected (h.listing l) = (h.socket_ok && IsConnected.scan l) := by
    cases hso : h.socket_ok <;> simp [IsConnected, Host.listing, hso]
  cases hv : (h.socket_ok && IsConnected.scan l) with
  | false =>
    rw [hv] at hc
    simp [GetNetworkType, hc]
  | true =>
    rw [hv] at hc
    rw [linux_GetNetworkType_of_enumeration (h.listing l) l hc rfl, priority_listing,
      active_interfaces_listing]
    simp

end NetworkServiceLinux

/-- C12. A loopback entry never influences the result: for every host and every enumerated list,
`GetNetworkType` on the list with an entry named `lo` inserted at any position (whatever its
address, whatever its operational state) equals `GetNetworkType` on the list restricted to the
entries not named `lo`; more generally `GetNetworkType` on any list equals `GetNetworkType` on
its restriction to the entries not named `lo`. With `wlan0` (wireless, address, up) listed
before `lo` (address, up) the result is "wifi". -/
theorem C12_loopback_ignored :
    (∀ (h : NetworkServiceLinux.Host) (l1 l2 : List NetworkServiceLinux.ifaddrs)
      (addr : Option NetworkServiceLinux.sockaddr),
      NetworkServiceLinux.GetNetworkType (h.listing (l1 ++ ⟨"lo", addr⟩ :: l2)) =
        NetworkServiceLinux.GetNetworkType
          (h.listing ((l1 ++ l2).filter fun ifa => ifa.ifa_name != "lo"))) ∧
    (∀ (h : NetworkServiceLinux.Host) (l : List NetworkServiceLinux.ifaddrs),
      NetworkServiceLinux.GetNetworkType (h.listing l) =
        NetworkServiceLinux.GetNetworkType
          (h.listing (l.filter fun ifa => ifa.ifa_name != "lo"))) ∧
    NetworkServiceLinux.host_wlan0_lo.getifaddrs =
      some [⟨"wlan0", some ⟨2, 167772165⟩⟩, ⟨"lo", some ⟨2, 16777343⟩⟩] ∧
    NetworkServiceLinux.IsInterfaceUp NetworkServiceLinux.host_wlan0_lo "lo" = true ∧
    NetworkServiceLinux.GetNetworkType NetworkServiceLinux.host_wlan0_lo = .ok "wifi" := by
  have key : ∀ (h : NetworkServiceLinux.Host) (l : List NetworkServiceLinux.ifaddrs),
      NetworkServiceLinux.GetNetworkType (h.listing l) =
        NetworkServiceLinux.GetNetworkType
          (h.listing (l.filter fun ifa => ifa.ifa_name != "lo")) := by
    intro h l
    rw [NetworkServiceLinux.GetNetworkType_listing, NetworkServiceLinux.GetNetworkType_listing,
      NetworkServiceLinux.scan_filter_lo, NetworkServiceLinux.active_interfaces_filter_lo]
  refine ⟨fun h l1 l2 addr => ?_, key, rfl, by decide, by decide⟩
  rw [key h (l1 ++ ⟨"lo", addr⟩ :: l2)]
  congr 2
  simp [List.filter_append, List.filter_cons]

/-! ## Default and precedence of the name patterns -/

theorem startsWith_append_left (p q : List Char) :
    ∀ s : List Char, startsWith s (p ++ q) = true → startsWith s p = true := by
  induction p with
  | nil => intro s _; cases s <;> rfl
  | cons d p ih =>
    intro s hs
    cases s with
    | nil => simp [startsWith] at hs
    | cons c s =>
      simp only [List.cons_append, startsWith, Bool.and_eq_true] at hs ⊢
      exact ⟨hs.1, ih s hs.2⟩

theorem findFrom_isSome_mono (p1 p2 : List Char)
    (hmono : ∀ s : List Char, startsWith s p1 = true → startsWith s p2 = true) :
    ∀ (s : List Char) (i : Nat),
      (findFrom s p1 i).isSome = true → (findFrom s p2 i).isSome = true := by
  intro s
  induction s with
  | nil =>
    intro i hi
    simp only [findFrom] at hi ⊢
    split_ifs at hi with h1
    · have h2 : startsWith [] p2 = true := hmono [] (by rw [h1]; rfl)
      cases p2 with
      | nil => simp
      | cons d p2 => simp [startsWith] at h2
    · simp at hi
  | cons c s ih =>
    intro i hi
    simp only [findFrom] at hi ⊢
    split_ifs at hi with h1
    · rw [if_pos (hmono _ h1)]; rfl
    · split_ifs
      · rfl
      · exact ih (i + 1) hi

theorem find_wlan_none_of_wl_none (name : String) (hwl : find name "wl" = none) :
    find name "wlan" = none := by
  have hmono := findFrom_isSome_mono "wlan".data "wl".data
    (fun s hs => startsWith_append_left "wl".data "an".data s hs) name.data 0
  unfold find at hwl ⊢
  cases hf : findFrom name.data "wlan".data 0 with
  | none => rfl
  | some n =>
    rw [hf, hwl] at hmono
    exact absurd (hmono rfl) (by simp)

namespace NetworkServiceLinux

theorem GetInterfaceType_of_missing_type (h : Host) (interface_name : String)
    (hw : h.path_exists ("/sys/class/net/" ++ interface_name ++ "/wireless") = false)
    (hf : h.ifstream ("/sys/class/net/" ++ interface_name ++ "/type") = none) :
    GetInterfaceType h interface_name = .ok (GetInterfaceType.fallback interface_name) := by
  simp [GetInterfaceType, hw, hf]

theorem GetInterfaceType_of_parsed_type (h : Host) (interface_name content : String) (t : Int)
    (hw : h.path_exists ("/sys/class/net/" ++ interface_name ++ "/wireless") = false)
    (hf : h.ifstream ("/sys/class/net/" ++ interface_name ++ "/type") = some content)
    (ht : stoi (getline content) = .ok t) :
    GetInterfaceType h interface_name =
      if t = 1 then
        if (find interface_name "wl").isSome || (find interface_name "wlan").isSome ||
            (find interface_name "wifi").isSome then .ok "wifi"
        else if (find interface_name "eth").isSome || (find interface_name "en").isSome ||
            (find interface_name "em").isSome then .ok "ethernet"
        else if (find interface_name "wwan").isSome || (find interface_name "ppp").isSome ||
            (find interface_name "usb").isSome then .ok "mobile"
        else .ok "ethernet"
      else .ok (GetInterfaceType.fallback interface_name) := by
  simp only [GetInterfaceType, hw, hf, ht, Bool.false_eq_true, if_false]

end NetworkServiceLinux

/-- C13. Default: for every interface without a wireless directory whose name contains none of
the substrings `wl`, `wlan`, `wifi`, `eth`, `en`, `em`, `wwan`, `ppp`, `usb`,
`GetInterfaceType` returns "ethernet", whether the type file is missing or holds an integer
(1 or any other value); and no value `GetInterfaceType` returns is "none". -/
theorem C13_default_ethernet :
    (∀ (h : NetworkServiceLinux.Host) (name : String),
      h.path_exists ("/sys/class/net/" ++ name ++ "/wireless") = false →
      find name "wl" = none → find name "wlan" = none → find name "wifi" = none →
      find name "eth" = none → find name "en" = none → find name "em" = none →
      find name "wwan" = none → find name "ppp" = none → find name "usb" = none →
      (h.ifstream ("/sys/class/net/" ++ name ++ "/type") = none ∨
        ∃ (content : String) (t : Int),
          h.ifstream ("/sys/class/net/" ++ name ++ "/type") = some content ∧
          stoi (getline content) = .ok t) →
      NetworkServiceLinux.GetInterfaceType h name = .ok "ethernet") ∧
    (∀ (h : NetworkServiceLinux.Host) (name c : String),
      NetworkServiceLinux.GetInterfaceType h name = .ok c → c ≠ "none") := by
  constructor
  · intro h name hw h1 h2 h3 h4 h5 h6 h7 h8 h9 htype
    have hfb : NetworkServiceLinux.GetInterfaceType.fallback name = "ethernet" := by
      simp [NetworkServiceLinux.GetInterfaceType.fallback, h1, h2, h3, h4, h5, h6, h7, h8]
    rcases htype with hf | ⟨content, t, hf, ht⟩
    · rw [NetworkServiceLinux.GetInterfaceType_of_missing_type h name hw hf, hfb]
    · rw [NetworkServiceLinux.GetInterfaceType_of_parsed_type h name content t hw hf ht, hfb]
      simp [h1, h2, h3, h4, h5, h6, h7, h8, h9]
  · intro h name c hc
    rcases NetworkServiceLinux.GetInterfaceType_cases h name c hc with e | e | e <;>
      rw [e] <;> decide

/-- Witness of C13: the interface `tun0` with link-layer type 65534. -/
theorem C13_default_ethernet_witness :
    NetworkServiceLinux.GetInterfaceType
      (NetworkServiceLinux.host_single "tun0" (some "65534\n")) "tun0" = .ok "ethernet" :=
  C13_default_ethernet.1 (NetworkServiceLinux.host_single "tun0" (some "65534\n")) "tun0" rfl
    (by decide) (by decide) (by decide) (by decide) (by decide) (by decide) (by decide)
    (by decide) (by decide) (Or.inr ⟨"65534\n", 65534, by decide, by decide⟩)

/-- C15. Precedence of the name patterns: for every interface without a wireless directory
whose name contains `eth`, `en` or `em` and neither `wl` nor `wifi`, `GetInterfaceType` returns
"ethernet", also when the name contains `wwan`, `ppp` or `usb`, in the type-1 branch and in the
fallback branch (type file missing or holding another integer); so do `ppp_modem` and
`usb_eth0` in both branches. -/
theorem C15_ethernet_before_mobile :
    (∀ (h : NetworkServiceLinux.Host) (name : String),
      h.path_exists ("/sys/class/net/" ++ name ++ "/wireless") = false →
      ((find name "eth").isSome = true ∨ (find name "en").isSome = true ∨
        (find name "em").isSome = true) →
      find name "wl" = none → find name "wifi" = none →
      (h.ifstream ("/sys/class/net/" ++ name ++ "/type") = none ∨
        ∃ (content : String) (t : Int),
          h.ifstream ("/sys/class/net/" ++ name ++ "/type") = some content ∧
          stoi (getline content) = .ok t) →
      NetworkServiceLinux.GetInterfaceType h name = .ok "ethernet") ∧
    NetworkServiceLinux.GetInterfaceType
      (NetworkServiceLinux.host_single "ppp_modem" (some "1\n")) "ppp_modem" = .ok "ethernet" ∧
    NetworkServiceLinux.GetInterfaceType
      (NetworkServiceLinux.host_single "ppp_modem" none) "ppp_modem" = .ok "ethernet" ∧
    NetworkServiceLinux.GetInterfaceType
      (NetworkServiceLinux.host_single "usb_eth0" (some "1\n")) "usb_eth0" = .ok "ethernet" ∧
    NetworkServiceLinux.GetInterfaceType
      (NetworkServiceLinux.host_single "usb_eth0" (some "512\n")) "usb_eth0" =
        .ok "ethernet" := by
  refine ⟨?_, by decide, by decide, by decide, by decide⟩
  intro h name hw heth hwl hwifi htype
  have hwlan := find_wlan_none_of_wl_none name hwl
  have hpat : ((find name "eth").isSome || (find name "en").isSome ||
      (find name "em").isSome) = true := by
    rcases heth with e | e | e <;> simp [e]
  have hfb : NetworkServiceLinux.GetInterfaceType.fallback name = "ethernet" := by
    simp only [NetworkServiceLinux.GetInterfaceType.fallback, hwl, hwlan, hwifi, hpat,
      Option.isSome_none, Bool.or_self, Bool.false_eq_true, if_false, if_true]
  rcases htype with hf | ⟨content, t, hf, ht⟩
  · rw [NetworkServiceLinux.GetInterfaceType_of_missing_type h name hw hf, hfb]
  · rw [NetworkServiceLinux.GetInterfaceType_of_parsed_type h name content t hw hf ht, hfb]
    simp only [hwl, hwlan, hwifi, hpat, Option.isSome_none, Bool.or_self, Bool.false_eq_true,
      if_false, if_true, ite_self]

/-- Witness of C15: the interface `ppp_modem`, whose name holds `ppp` and `em`, with link-layer
type 1. -/
theorem C15_ethernet_before_mobile_witness :
    (find "ppp_modem" "ppp").isSome = true ∧ (find "ppp_modem" "em").isSome = true ∧
    NetworkServiceLinux.GetInterfaceType
      (NetworkServiceLinux.host_single "ppp_modem" (some "1\n")) "ppp_modem" = .ok "ethernet" :=
  ⟨by decide, by decide,
    C15_ethernet_before_mobile.1 (NetworkServiceLinux.host_single "ppp_modem" (some "1\n"))
      "ppp_modem" rfl (Or.inr (Or.inr (by decide))) (by decide) (by decide)
      (Or.inr ⟨"1\n", 1, by decide, by decide⟩)⟩

/-! ## What an emitting tick sends -/

/-- C14, as stated, fails: when the platform changes between the comparison and the send of one
loop tick, the tick stores the compared candidate as last-known state and sends another triple.
On Linux the comparison reads the host with `eth0` up and the send reads the host with a mobile
and a wireless interface: "ethernet" is stored, "wifi" is sent. On Windows a wireless adapter is
compared and stored, a wired one is sent. -/
theorem C14_counterexample :
    MyApplication.tick ⟨true, some ⟨"", false, false, false⟩, true, []⟩
        ⟨NetworkServiceLinux.host_eth0, NetworkServiceLinux.host_eth0,
          NetworkServiceLinux.host_eth0,
          SendReads.fixed NetworkServiceLinux.host_mobile_wifi 1700000001000⟩ =
      .ok ⟨true, some ⟨"ethernet", true, true, false⟩, true,
        [⟨true, true, "wifi", 1700000001000⟩]⟩ ∧
    FlutterWindow.tick NetworkServiceWindows.sample_constants
        ⟨true, some ⟨"", false, false, false⟩, true, []⟩
        ⟨NetworkServiceWindows.host_with [⟨"10.0.0.2", 71⟩],
          NetworkServiceWindows.host_with [⟨"10.0.0.2", 71⟩],
          NetworkServiceWindows.host_with [⟨"10.0.0.2", 71⟩],
          SendReads.fixed (NetworkServiceWindows.host_with [⟨"10.0.0.3", 6⟩]) 1700000001000⟩ =
      ⟨true, some ⟨"wifi", true, true, false⟩, true,
        [⟨true, true, "ethernet", 1700000001000⟩]⟩ := by
  refine ⟨by decide, by decide⟩

/-- C14, amended. On a loop tick that emits (sink attached, monitor running, the service calls
returning), the triple stored as last-known state is the candidate that was compared, and the
snapshot sent is a new sample: it carries what the three service calls of the send function
return, read after the comparison. The sent triple equals the compared candidate when the send
reads the platform states the comparison read (the state held fixed through the tick). On
Linux and on Windows. -/
theorem C14_emitted_snapshot_amended :
    (∀ (self : MyApplication) (l : LoopThread) (w : LoopReads NetworkServiceLinux.Host)
      (nt nt' : String) (woe woe' : Bool),
      self.event_channel = true → self.is_monitoring = true →
      self.monitoring_thread = some l → l.exited = false →
      NetworkServiceLinux.GetNetworkType w.atGetNetworkType = .ok nt →
      NetworkServiceLinux.IsConnectedToWifiOrEthernet w.atIsConnectedToWifiOrEthernet =
        .ok woe →
      NetworkServiceLinux.IsConnectedToWifiOrEthernet w.send.atIsConnectedToWifiOrEthernet =
        .ok woe' →
      NetworkServiceLinux.GetNetworkType w.send.atGetNetworkType = .ok nt' →
      (nt ≠ l.lastNetworkType ∨
        NetworkServiceLinux.IsConnected w.atIsConnected ≠ l.lastIsConnected ∨
        woe ≠ l.lastIsWifiOrEthernet) →
      MyApplication.tick self w =
        .ok { self with
          monitoring_thread :=
            some ⟨nt, NetworkServiceLinux.IsConnected w.atIsConnected, woe, false⟩,
          sent := self.sent ++
            [⟨NetworkServiceLinux.IsConnected w.send.atIsConnected, woe', nt', w.send.now⟩] } ∧
      (w.send.atIsConnected = w.atIsConnected →
        w.send.atIsConnectedToWifiOrEthernet = w.atIsConnectedToWifiOrEthernet →
        w.send.atGetNetworkType = w.atGetNetworkType →
        nt' = nt ∧
        NetworkServiceLinux.IsConnected w.send.atIsConnected =
          NetworkServiceLinux.IsConnected w.atIsConnected ∧
        woe' = woe)) ∧
    (∀ (k : NetworkServiceWindows.IfTypeConstants) (self : FlutterWindow) (l : LoopThread)
      (w : LoopReads NetworkServiceWindows.Host),
      self.event_sink_ = true → self.is_monitoring_ = true →
      self.monitoring_thread_ = some l → l.exited = false →
      (NetworkServiceWindows.GetNetworkType k w.atGetNetworkType ≠ l.lastNetworkType ∨
        NetworkServiceWindows.IsConnected w.atIsConnected ≠ l.lastIsConnected ∨
        NetworkServiceWindows.IsConnectedToWifiOrEthernet k w.atIsConnectedToWifiOrEthernet ≠
          l.lastIsWifiOrEthernet) →
      FlutterWindow.tick k self w =
        { self with
          monitoring_thread_ :=
            some ⟨NetworkServiceWindows.GetNetworkType k w.atGetNetworkType,
              NetworkServiceWindows.IsConnected w.atIsConnected,
              NetworkServiceWindows.IsConnectedToWifiOrEthernet k
                w.atIsConnectedToWifiOrEthernet, false⟩,
          sent := self.sent ++
            [⟨NetworkServiceWindows.IsConnected w.send.atIsConnected,
              NetworkServiceWindows.IsConnectedToWifiOrEthernet k
                w.send.atIsConnectedToWifiOrEthernet,
              NetworkServiceWindows.GetNetworkType k w.send.atGetNetworkType, w.send.now⟩] } ∧
      (w.send.atIsConnected = w.atIsConnected →
        w.send.atIsConnectedToWifiOrEthernet = w.atIsConnectedToWifiOrEthernet →
        w.send.atGetNetworkType = w.atGetNetworkType →
        NetworkServiceWindows.GetNetworkType k w.send.atGetNetworkType =
          NetworkServiceWindows.GetNetworkType k w.atGetNetworkType ∧
        NetworkServiceWindows.IsConnected w.send.atIsConnected =
          NetworkServiceWindows.IsConnected w.atIsConnected ∧
        NetworkServiceWindows.IsConnectedToWifiOrEthernet k
            w.send.atIsConnectedToWifiOrEthernet =
          NetworkServiceWindows.IsConnectedToWifiOrEthernet k
            w.atIsConnectedToWifiOrEthernet)) := by
  constructor
  · intro self l w nt nt' woe woe' hch hm ht hl hnt hwoe hwoe' hnt' hd
    constructor
    · simp only [MyApplication.tick, ht, hl, MyApplication.loop_iteration, hm, hnt, hwoe,
        if_true, hd, Bool.false_eq_true, if_false, MyApplication.send_network_update, hch,
        hwoe', hnt']
    · intro e1 e2 e3
      rw [e2, hwoe] at hwoe'
      rw [e3, hnt] at hnt'
      exact ⟨(Except.ok.inj hnt').symm, by rw [e1], (Except.ok.inj hwoe').symm⟩
  · intro k self l w hch hm ht hl hd
    constructor
    · simp only [FlutterWindow.tick, ht, hl, FlutterWindow.loop_iteration, hm, if_true, hd,
        Bool.false_eq_true, if_false, FlutterWindow.SendNetworkUpdate, hch]
    · intro e1 e2 e3
      rw [e1, e2, e3]
      exact ⟨rfl, rfl, rfl⟩

/-- Witness of the amended C14: the first tick of the Linux monitor on the host with `eth0` up,
held fixed through the tick. -/
theorem C14_emitted_snapshot_amended_witness :
    MyApplication.tick ⟨true, some ⟨"", false, false, false⟩, true, []⟩
        (LoopReads.fixed NetworkServiceLinux.host_eth0 1700000001000) =
      .ok ⟨true, some ⟨"ethernet", true, true, false⟩, true,
        [] ++ [⟨true, true, "ethernet", 1700000001000⟩]⟩ :=
  (C14_emitted_snapshot_amended.1 ⟨true, some ⟨"", false, false, false⟩, true, []⟩
    ⟨"", false, false, false⟩ (LoopReads.fixed NetworkServiceLinux.host_eth0 1700000001000)
    "ethernet" "ethernet" true true rfl rfl rfl rfl (by decide) (by decide) (by decide)
    (by decide) (Or.inl (by decide))).1.trans (by decide)
